import Mathlib

/-!
Verification of the Form D Analytics Hub service (`src/main.py`) against its
natural-language specification.

The development shallowly embeds the data-shaping pipeline of the service:
JSON values, the theme/toolbar/layout helpers, the short-currency formatter,
the aggregation steps (top-4-plus-Other grouping, dedupe-by-company-keep-max,
sort and truncate), the month filtering of the time-series endpoint, and the
per-endpoint request handlers.  Python dictionaries are embedded as
association lists, Python numbers as `Int` (exact integer arithmetic; the
one-decimal `:.1f` rendering is embedded as exact rational rounding written
with integer floor division), fallible operations (`d[k]`, `max`, `int(s)`)
as `Except`, and the `try/except` wrapper of each endpoint as a `match` on
the `Except` result.  `sorted` is embedded as a stable insertion sort, which
agrees with Python's stable Timsort for equal keys.
-/

namespace FormD

/-- JSON values.  Numbers are split into `num` (integral, the only numbers
the embedded pipeline computes with) and `rat` (non-integral constants such
as plotly's `hole = 0.4`, carried opaquely). -/
inductive Json where
  | null : Json
  | bool : Bool → Json
  | num : Int → Json
  | rat : Rat → Json
  | str : String → Json
  | arr : List Json → Json
  | obj : List (String × Json) → Json

/-- Python `d.get(key)` on an association list. -/
def assocGet : List (String × Json) → String → Option Json
  | [], _ => none
  | (k, v) :: rest, key => if k = key then some v else assocGet rest key

/-- Python `d[key] = v` on an association list: replace in place if the key
exists, otherwise append (Python 3.7+ dicts preserve insertion order). -/
def assocSet : List (String × Json) → String → Json → List (String × Json)
  | [], k, v => [(k, v)]
  | (k', v') :: rest, k, v =>
    if k' = k then (k, v) :: rest else (k', v') :: assocSet rest k v

/-- Read a field of a JSON object (`none` on non-objects/missing key). -/
def jsonGetField (j : Json) (key : String) : Option Json :=
  match j with
  | .obj fields => assocGet fields key
  | _ => none

/-- Python `j[key] = v` on a JSON object (identity on non-objects). -/
def jsonSetField (j : Json) (key : String) (v : Json) : Json :=
  match j with
  | .obj fields => .obj (assocSet fields key v)
  | _ => j

/-- Python `dict.update(kvs)`: apply `assocSet` for each pair in order. -/
def jsonUpdateMany (j : Json) (kvs : List (String × Json)) : Json :=
  kvs.foldl (fun acc kv => jsonSetField acc kv.1 kv.2) j

/-- Python `d[key]` where the embedding records a possibly-missing value:
raises `KeyError` when absent. -/
def pyIndex {α : Type} (o : Option α) (key : String) : Except String α :=
  match o with
  | some v => .ok v
  | none => .error ("KeyError: " ++ key)

/-- A Python list comprehension whose element expression may raise:
elements are produced left to right, stopping at the first exception. -/
def mapExcept {α β : Type} (f : α → Except String β) :
    List α → Except String (List β)
  | [] => .ok []
  | a :: rest => do
    let b ← f a
    let bs ← mapExcept f rest
    return b :: bs

/-- Python `max(l)` on a list of integers: raises on an empty list. -/
def pyMaxInt (l : List Int) : Except String Int :=
  match l.max? with
  | some v => .ok v
  | none => .error "max() arg is an empty sequence"

/-- Digit-string parsing used to embed Python `int(s)` on the year slices
occurring in the service (all-digit strings; anything else raises). -/
def digitsToNat? : List Char → Option Nat
  | [] => none
  | cs =>
    if cs.all Char.isDigit then
      some (cs.foldl (fun a c => a * 10 + (c.toNat - 48)) 0)
    else none

/-- Python `int(s)` restricted to the non-negative year strings the service
parses (`month[:4]`, backend year labels). -/
def pyInt (s : String) : Except String Int :=
  match digitsToNat? s.data with
  | some n => .ok (n : Int)
  | none => .error ("invalid literal for int() with base 10: " ++ s)

/-- Stable descending sort by an integer key: embeds Python
`sorted(l, key=key, reverse=True)` (Timsort is stable, and `reverse=True`
keeps equal-key elements in input order, as insertion placing an earlier
element before later equal-key elements does). -/
def sortByDesc {α : Type} (key : α → Int) (l : List α) : List α :=
  l.insertionSort (fun a b => key b ≤ key a)

/-- Stable ascending sort by an integer key: embeds Python
`sorted(l, key=key)`. -/
def sortByAsc {α : Type} (key : α → Int) (l : List α) : List α :=
  l.insertionSort (fun a b => key a ≤ key b)

/-- Stable ascending sort by a string key: embeds Python `sorted` on
(distinct-keyed) string-keyed pairs. -/
def sortByStrAsc {α : Type} (key : α → String) (l : List α) : List α :=
  l.insertionSort (fun a b => key a ≤ key b)

/-- Stable descending sort of strings: embeds Python
`sorted(l, reverse=True)` on strings. -/
def sortStrDesc (l : List String) : List String :=
  l.insertionSort (fun a b => b ≤ a)

/-- Digit grouping for Python's thousands separator; operates on the
least-significant-first digit list, with the list length as fuel. -/
def commaGroupAux : Nat → List Char → List Char
  | _, [] => []
  | 0, ds => ds
  | fuel + 1, ds =>
    if ds.length ≤ 3 then ds
    else ds.take 3 ++ [','] ++ commaGroupAux fuel (ds.drop 3)

/-- Python `f"\x7bn:,\x7d"` on a natural number: decimal digits grouped in
threes by commas. -/
def fmtThousands (n : Nat) : String :=
  let ds := (Nat.toDigits 10 n).reverse
  String.mk (commaGroupAux ds.length ds).reverse

/-- Python `f"\x7bv:,\x7d"` / `f"\x7bv:,.0f\x7d"` on an integer value. -/
def fmtCommaInt (v : Int) : String :=
  if v < 0 then "-" ++ fmtThousands v.natAbs else fmtThousands v.natAbs

/-- Round `num / den` (with `den > 0`) to the nearest integer, ties to even:
the rounding underlying Python's `:.1f` rendering (exact-rational model of
the float formatting; the service only formats quotients of integers by
powers of ten). -/
def roundHalfEvenDiv (num den : Int) : Int :=
  let f : Int := num.fdiv den
  let r : Int := num.fmod den
  if 2 * r < den then f
  else if den < 2 * r then f + 1
  else if f % 2 = 0 then f else f + 1

/-- Render a signed number of tenths as a one-decimal string. -/
def fmtTenths (t : Int) : String :=
  if t < 0 then
    "-" ++ toString (t.natAbs / 10) ++ "." ++ toString (t.natAbs % 10)
  else
    toString (t.natAbs / 10) ++ "." ++ toString (t.natAbs % 10)

/-- Python `f"\x7bvalue / den:.1f\x7d"`: one-decimal rendering of the exact
quotient. -/
def fmtFixed1Div (value den : Int) : String :=
  fmtTenths (roundHalfEvenDiv (10 * value) den)

/-- `get_theme_colors` (src/main.py lines 40-47): the returned palette does
not depend on the `theme` argument. -/
def get_theme_colors (_theme : String) : List (String × String) :=
  [ ("main_line", "#3B82F6"),
    ("background", "rgba(0,0,0,0)"),
    ("text", "white"),
    ("grid", "rgba(255,255,255,0.1)") ]

/-- Convenience accessors for the palette fields (the source reads the dict
by key; every key is present by construction). -/
def themeMainLine (_theme : String) : String := "#3B82F6"

def themeBackground (_theme : String) : String := "rgba(0,0,0,0)"

def themeText (_theme : String) : String := "white"

def themeGrid (_theme : String) : String := "rgba(255,255,255,0.1)"

/-- `get_toolbar_config` (src/main.py lines 49-59). -/
def get_toolbar_config : Json :=
  Json.obj [
    ("displayModeBar", Json.bool true),
    ("displaylogo", Json.bool false),
    ("modeBarButtonsToRemove", Json.arr
      [Json.str "zoom2d", Json.str "pan2d", Json.str "select2d",
       Json.str "lasso2d", Json.str "zoomIn2d", Json.str "zoomOut2d",
       Json.str "autoScale2d", Json.str "resetScale2d",
       Json.str "hoverClosestCartesian", Json.str "hoverCompareCartesian"]),
    ("scrollZoom", Json.bool false)
  ]

/-- `base_layout` (src/main.py lines 61-85). -/
def base_layout (theme : String) : Json :=
  let hover_bgcolor := if theme ≠ "light" then "#111827" else "white"
  let hover_bordercolor := if theme ≠ "light" then "#374151" else "#E5E7EB"
  Json.obj [
    ("plot_bgcolor", Json.str (themeBackground theme)),
    ("paper_bgcolor", Json.str (themeBackground theme)),
    ("font", Json.obj [("color", Json.str (themeText theme))]),
    ("hoverlabel", Json.obj [
      ("bgcolor", Json.str hover_bgcolor),
      ("bordercolor", Json.str hover_bordercolor),
      ("font", Json.obj [("color", Json.str (themeText theme))])]),
    ("xaxis", Json.obj [
      ("gridcolor", Json.str (themeGrid theme)),
      ("tickcolor", Json.str (themeText theme)),
      ("titlefont", Json.obj [("color", Json.str (themeText theme))])]),
    ("yaxis", Json.obj [
      ("gridcolor", Json.str (themeGrid theme)),
      ("tickcolor", Json.str (themeText theme)),
      ("titlefont", Json.obj [("color", Json.str (themeText theme))])])
  ]

/-- The fixed hover-label colors `base_layout` selects from the theme
(everything else in its output is theme-independent). -/
def base_layout_core (hover_bgcolor hover_bordercolor : String) : Json :=
  Json.obj [
    ("plot_bgcolor", Json.str "rgba(0,0,0,0)"),
    ("paper_bgcolor", Json.str "rgba(0,0,0,0)"),
    ("font", Json.obj [("color", Json.str "white")]),
    ("hoverlabel", Json.obj [
      ("bgcolor", Json.str hover_bgcolor),
      ("bordercolor", Json.str hover_bordercolor),
      ("font", Json.obj [("color", Json.str "white")])]),
    ("xaxis", Json.obj [
      ("gridcolor", Json.str "rgba(255,255,255,0.1)"),
      ("tickcolor", Json.str "white"),
      ("titlefont", Json.obj [("color", Json.str "white")])]),
    ("yaxis", Json.obj [
      ("gridcolor", Json.str "rgba(255,255,255,0.1)"),
      ("tickcolor", Json.str "white"),
      ("titlefont", Json.obj [("color", Json.str "white")])])
  ]

/-- `format_currency_short` (src/main.py lines 666-676, repeated verbatim at
791-801, 1007-1017, 1228-1238, 1396-1406, 1580-1590): threshold selection on
the absolute value, the sign kept on the divided value, `:.1f` for the
abbreviated forms and `:,.0f` otherwise. -/
def format_currency_short (value : Int) : String :=
  let absolute_value : Nat := value.natAbs
  if absolute_value ≥ 1000000000000 then
    "$" ++ fmtFixed1Div value 1000000000000 ++ "T"
  else if absolute_value ≥ 1000000000 then
    "$" ++ fmtFixed1Div value 1000000000 ++ "B"
  else if absolute_value ≥ 1000000 then
    "$" ++ fmtFixed1Div value 1000000 ++ "M"
  else if absolute_value ≥ 1000 then
    "$" ++ fmtFixed1Div value 1000 ++ "K"
  else
    "$" ++ fmtCommaInt value

/-- The `metric in ["offering_amount", "amount_sold"]` test used throughout
the handlers. -/
def isAmountMetric (metric : String) : Bool :=
  metric = "offering_amount" || metric = "amount_sold"

/-- Python truthiness of the optional `year`/`industry` query parameters
combined with the `!= "all"` sentinel check
(`if year and year != "all"`). -/
def optParamActive (o : Option String) : Bool :=
  match o with
  | none => false
  | some s => s ≠ "" && s ≠ "all"

/-- Truthiness plus sentinel check for the always-present `industry`
parameter (`if industry and industry != "all"`). -/
def industryActive (industry : String) : Bool :=
  industry ≠ "" && industry ≠ "all"

/-- A record of the backend `distribution` arrays: a JSON dict whose keys
may individually be absent (the handlers read `name`/`value` both with
`.get(..., default)` and with raising `item[...]` access). -/
structure DistRec where
  name : Option String
  value : Option Int
  count : Option Int
  total_amount : Option Int
deriving DecidableEq

/-- Shorthand for distribution records carrying only `name` and `value`. -/
def DistRec.nv (n : String) (v : Int) : DistRec :=
  ⟨some n, some v, none, none⟩

/-- Emit a present field of a backend record. -/
def optField (k : String) (v : Option Json) : List (String × Json) :=
  match v with
  | some j => [(k, j)]
  | none => []

/-- Serialize a distribution record back to JSON (raw mode returns backend
dicts unchanged). -/
def distRecToJson (r : DistRec) : Json :=
  Json.obj (optField "name" (r.name.map Json.str) ++
    optField "value" (r.value.map Json.num) ++
    optField "count" (r.count.map Json.num) ++
    optField "total_amount" (r.total_amount.map Json.num))

/-- Response of `charts/security-type-distribution`; a `[]` field models a
missing or empty key (both falsy under the source's `not data.get(...)`
tests). -/
structure SecDistResponse where
  distribution : List DistRec
  available_years : List String
deriving DecidableEq

/-- The hardcoded fallback distribution of `get_security_types`
(src/main.py lines 609-613). -/
def securityFallbackDist : List DistRec :=
  [DistRec.nv "Equity" 1250, DistRec.nv "Debt" 450, DistRec.nv "Fund" 320]

/-- The distribution list `get_security_types` works on: backend data when
present and non-empty, the fallback otherwise (lines 608-615). -/
def securitySource (data : Option SecDistResponse) : List DistRec :=
  match data with
  | none => securityFallbackDist
  | some d => if d.distribution = [] then securityFallbackDist else d.distribution

/-- The top-4-plus-"All Others" grouping of `get_security_types`
(src/main.py lines 626-638): stable descending sort by `value`, keep the
first four, and when more remain append one synthetic record whose `value`
is the sum of the remainder (no other field is carried over). -/
def securityGroupTop4 (distribution : List DistRec) : List DistRec :=
  let display_data := sortByDesc (fun x => x.value.getD 0) distribution
  let top_4 := display_data.take 4
  if 4 < display_data.length then
    top_4 ++ [⟨some "All Others",
      some ((display_data.drop 4).foldl (fun a x => a + x.value.getD 0) 0),
      none, none⟩]
  else top_4

/-- The `{"data": ..., "layout": ...}` object `json.loads(fig.to_json())`
produces for a figure assembled from the given traces and layout. -/
def figToJson (data : List Json) (layout : Json) : Json :=
  Json.obj [("data", Json.arr data), ("layout", layout)]

/-- The `figure_json['config'] = get_toolbar_config()` step shared by every
successful chart return in the source. -/
def attachConfig (fig : Json) : Json :=
  jsonSetField fig "config" get_toolbar_config

/-- Filter-context suffix of `get_security_types` (lines 651-661): optional
year dimension followed by the metric label; joined and parenthesised. -/
def securityFilterText (year : Option String) (metric : String) : String :=
  let filter_context :=
    (if optParamActive year then ["Year: " ++ year.getD ""] else []) ++
    [if metric = "amount_sold" then "by Amount Sold"
     else if metric = "offering_amount" then "by Offering Amount"
     else "by Count"]
  " (" ++ String.intercalate ", " filter_context ++ ")"

/-- Pie slice colors of `get_security_types` (line 649). -/
def securityColors : List String :=
  ["#3B82F6", "#10B981", "#F59E0B", "#EF4444", "#8B5CF6"]

/-- Body of `get_security_types` (src/main.py lines 588-730), i.e. the
`try` block, with the backend fetch result passed in; `.error` is a raised
exception (caught by the handler's `except`). -/
def get_security_types_body (year : Option String) (metric theme : String)
    (raw : Bool) (data : Option SecDistResponse) : Except String Json := do
  let distribution := securitySource data
  if raw then
    return Json.arr (distribution.map distRecToJson)
  else
  let total_value := distribution.foldl (fun a x => a + x.value.getD 0) 0
  let final_data := securityGroupTop4 distribution
  let filter_text := securityFilterText year metric
  let chart_title :=
    if isAmountMetric metric then
      "Total: " ++ format_currency_short total_value ++ filter_text
    else
      "Total: " ++ fmtCommaInt total_value ++ filter_text
  let labels ← mapExcept (fun item => pyIndex item.name "name") final_data
  let values ← mapExcept (fun item => pyIndex item.value "value") final_data
  let hover_template :=
    if isAmountMetric metric then
      "<b>%\x7blabel\x7d</b><br>Amount: %\x7bcustomdata\x7d<br>Percentage: %\x7bpercent\x7d<extra></extra>"
    else
      "<b>%\x7blabel\x7d</b><br>Filings: %\x7bvalue:,\x7d<br>Percentage: %\x7bpercent\x7d<extra></extra>"
  let customdata :=
    if isAmountMetric metric then
      Json.arr ((values.map format_currency_short).map Json.str)
    else Json.null
  let pie := Json.obj [
    ("type", Json.str "pie"),
    ("labels", Json.arr (labels.map Json.str)),
    ("values", Json.arr (values.map Json.num)),
    ("hole", Json.rat 0.4),
    ("marker", Json.obj [("colors",
      Json.arr ((securityColors.take final_data.length).map Json.str))]),
    ("textinfo", Json.str "label+percent"),
    ("textposition", Json.str "auto"),
    ("textfont", Json.obj [("color", Json.str "white"), ("size", Json.num 12)]),
    ("hovertemplate", Json.str hover_template),
    ("customdata", customdata)]
  let layout_config := jsonUpdateMany (base_layout theme) [
    ("title", Json.obj [
      ("text", Json.str ("Security Type Distribution<br><sub style=\x27color:" ++
        themeText theme ++ "\x27>" ++ chart_title ++ "</sub>")),
      ("x", Json.rat 0.5),
      ("font", Json.obj [("size", Json.num 16), ("color", Json.str (themeText theme))])]),
    ("height", Json.num 400),
    ("showlegend", Json.bool true),
    ("legend", Json.obj [
      ("orientation", Json.str "v"),
      ("yanchor", Json.str "middle"),
      ("y", Json.rat 0.5),
      ("font", Json.obj [("size", Json.num 12), ("color", Json.str (themeText theme))])]),
    ("dragmode", Json.bool false)]
  return attachConfig (figToJson [pie] layout_config)

/-- The chart returned by the `except` branch of `get_security_types`
(src/main.py lines 732-750): a hardcoded fallback figure serialized with
`fig.to_json()` and returned with NO `config` field attached. -/
def security_types_exception_json : Json :=
  figToJson
    [Json.obj [
      ("type", Json.str "pie"),
      ("labels", Json.arr [Json.str "Equity", Json.str "Debt", Json.str "Fund"]),
      ("values", Json.arr [Json.num 1250, Json.num 450, Json.num 320]),
      ("hole", Json.rat 0.4),
      ("marker", Json.obj [("colors",
        Json.arr [Json.str "#3B82F6", Json.str "#F59E0B", Json.str "#10B981"])]),
      ("textfont", Json.obj [("color", Json.str "white"), ("size", Json.num 12)])]]
    (Json.obj [
      ("title", Json.str "Security Type Distribution (Fallback)"),
      ("height", Json.num 400),
      ("plot_bgcolor", Json.str "rgba(0,0,0,0)"),
      ("paper_bgcolor", Json.str "rgba(0,0,0,0)"),
      ("title_font_color", Json.str "white"),
      ("legend", Json.obj [("font", Json.obj [("color", Json.str "white")])]),
      ("dragmode", Json.bool false)])

/-- The complete `get_security_types` handler: `try` body, with the
`except` branch returning the fallback figure. -/
def get_security_types_ep (year : Option String) (metric theme : String)
    (raw : Bool) (data : Option SecDistResponse) : Json :=
  match get_security_types_body year metric theme raw data with
  | .ok j => j
  | .error _ => security_types_exception_json

/-- Python `d.get(key)` on an association list with arbitrary values. -/
def assocFindRec {β : Type} : List (String × β) → String → Option β
  | [], _ => none
  | (k, v) :: rest, key => if k = key then some v else assocFindRec rest key

/-- Python `d[key] = v` on an association list with arbitrary values:
replace in place, else append. -/
def assocSetRec {β : Type} : List (String × β) → String → β → List (String × β)
  | [], k, v => [(k, v)]
  | (k', v') :: rest, k, v =>
    if k' = k then (k, v) :: rest else (k', v') :: assocSetRec rest k v

/-- Python `s[:n] + "..." if len(s) > n else s`, the label truncation used
for company names, industries and locations. -/
def pyTruncate (n : Nat) (s : String) : String :=
  if n < s.length then s.take n ++ "..." else s

/-- A raw record of the backend `top_fundraisers` array (keys read with
`.get(..., default)`; `formatted_amount` is carried but never read). -/
structure FundIn where
  company_name : Option String
  amount : Option Int
  security_type : Option String
  formatted_amount : Option String
deriving DecidableEq

/-- `item.get("company_name", "Unknown Company")`. -/
def FundIn.key (i : FundIn) : String := i.company_name.getD "Unknown Company"

/-- `item.get("amount", 0)`. -/
def FundIn.amt (i : FundIn) : Int := i.amount.getD 0

/-- `item.get("security_type", "Unknown")`. -/
def FundIn.sec (i : FundIn) : String := i.security_type.getD "Unknown"

/-- The dict entries `get_top_fundraisers` rebuilds during deduplication
(src/main.py lines 1201-1211): all three keys always present. -/
structure FundRec where
  company_name : String
  amount : Int
  security_type : String
deriving DecidableEq

/-- Serialize a rebuilt fundraiser record (raw mode output). -/
def fundRecToJson (r : FundRec) : Json :=
  Json.obj [
    ("company_name", Json.str r.company_name),
    ("amount", Json.num r.amount),
    ("security_type", Json.str r.security_type)]

/-- One iteration of the dedupe loop of `get_top_fundraisers`
(src/main.py lines 1193-1211) over the insertion-ordered dict
`company_aggregated`: a new company is appended; an existing company is
replaced in place only when the incoming `amount` is strictly larger. -/
def dedupeStep (m : List (String × FundRec)) (item : FundIn) :
    List (String × FundRec) :=
  let company_name := item.key
  let amount := item.amt
  let security_type := item.sec
  match assocFindRec m company_name with
  | some prev =>
    if prev.amount < amount then
      assocSetRec m company_name ⟨company_name, amount, security_type⟩
    else m
  | none => m ++ [(company_name, ⟨company_name, amount, security_type⟩)]

/-- The `company_aggregated` dict after the dedupe loop (lines 1192-1211). -/
def company_aggregated (fundraisers : List FundIn) : List (String × FundRec) :=
  fundraisers.foldl dedupeStep []

/-- `list(company_aggregated.values())` (line 1214). -/
def dedupedFundraisers (fundraisers : List FundIn) : List FundRec :=
  (company_aggregated fundraisers).map (fun kv => kv.2)

/-- Hardcoded fallback fundraisers of `get_top_fundraisers`
(src/main.py lines 1182-1187). -/
def fundraisersFallback : List FundIn :=
  [⟨some "TechCorp Inc", some 500000000, some "Equity", some "$500M"⟩,
   ⟨some "HealthVentures LLC", some 250000000, some "Equity", some "$250M"⟩,
   ⟨some "GreenEnergy Partners", some 150000000, some "Fund", some "$150M"⟩,
   ⟨some "FinTech Solutions", some 100000000, some "Debt", some "$100M"⟩]

/-- The list `get_top_fundraisers` deduplicates: the backend
`top_fundraisers` array truncated to its FIRST 20 entries when present and
non-empty, the fallback otherwise (src/main.py lines 1181-1189). -/
def fundSource (data : Option (List FundIn)) : List FundIn :=
  match data with
  | none => fundraisersFallback
  | some l => if l = [] then fundraisersFallback else l.take 20

/-- Lines 1192-1218 of `get_top_fundraisers`: dedupe by company keeping the
maximum amount, stable descending sort by amount, truncation to 20. -/
def aggregateFundraisers (fundraisers : List FundIn) : List FundRec :=
  ((sortByDesc (fun x => x.amount) (dedupedFundraisers fundraisers)).take 20)

/-- The record list returned by `get_top_fundraisers` in raw mode
(src/main.py lines 1181-1222). -/
def top_fundraisers_raw (data : Option (List FundIn)) : List FundRec :=
  aggregateFundraisers (fundSource data)

/-- The ascending re-sort of line 1225, applied on the chart path only,
so the horizontal bar shows the largest amount on top. -/
def fundraisersDisplay (fundraisers : List FundRec) : List FundRec :=
  sortByAsc (fun x => x.amount) fundraisers

/-- Filter-context suffix of `get_top_fundraisers` (lines 1263-1273). -/
def fundraisersFilterText (year industry : Option String) (metric : String) :
    String :=
  let filter_context :=
    (if optParamActive year then ["Year: " ++ year.getD ""] else []) ++
    (if optParamActive industry then ["Industry: " ++ industry.getD ""] else []) ++
    [if metric = "amount_sold" then "by Amount Sold" else "by Offering Amount"]
  " (" ++ String.intercalate ", " filter_context ++ ")"

/-- Body of `get_top_fundraisers` (src/main.py lines 1161-1307). -/
def get_top_fundraisers_body (year industry : Option String)
    (metric theme : String) (raw : Bool) (data : Option (List FundIn)) :
    Except String Json := do
  let fundraisers := top_fundraisers_raw data
  if raw then
    return Json.arr (fundraisers.map fundRecToJson)
  else
  let fundraisers := fundraisersDisplay fundraisers
  let formatted_amounts :=
    fundraisers.map (fun item => format_currency_short item.amount)
  let bar := Json.obj [
    ("type", Json.str "bar"),
    ("x", Json.arr (fundraisers.map (fun item => Json.num item.amount))),
    ("y", Json.arr (fundraisers.map (fun item =>
      Json.str (pyTruncate 40 item.company_name)))),
    ("orientation", Json.str "h"),
    ("marker", Json.obj [("color", Json.arr (fundraisers.map (fun item =>
      Json.str (if item.security_type = "Equity" then "#3B82F6"
        else if item.security_type = "Debt" then "#F59E0B"
        else "#10B981"))))]),
    ("text", Json.arr (formatted_amounts.map Json.str)),
    ("textposition", Json.str "outside"),
    ("textfont", Json.obj [("color", Json.str (themeText theme)), ("size", Json.num 10)]),
    ("hovertemplate", Json.str
      "<b>%\x7by\x7d</b><br>Amount: %\x7btext\x7d<br>Type: %\x7bcustomdata\x7d<extra></extra>"),
    ("customdata", Json.arr (fundraisers.map (fun item => Json.str item.security_type)))]
  let subtitle := "Real Form D data - largest offering amounts" ++
    fundraisersFilterText year industry metric
  let amount_max ← pyMaxInt (fundraisers.map (fun item => item.amount))
  let layout_config := jsonUpdateMany (base_layout theme) [
    ("title", Json.obj [
      ("text", Json.str ("Top 20 Fundraisers<br><sub style=\x27color:" ++
        themeText theme ++ "\x27>" ++ subtitle ++ "</sub>")),
      ("x", Json.rat 0.5),
      ("font", Json.obj [("size", Json.num 16), ("color", Json.str (themeText theme))])]),
    ("xaxis_title", Json.str "Offering Amount ($)"),
    ("height", Json.num 600),
    ("margin", Json.obj [("l", Json.num 200), ("r", Json.num 50),
      ("t", Json.num 80), ("b", Json.num 80)]),
    ("xaxis", Json.obj [
      ("range", Json.arr [Json.num 0, Json.rat ((amount_max : Rat) * 1.1)]),
      ("title_font_color", Json.str (themeText theme)),
      ("tickfont_color", Json.str (themeText theme)),
      ("gridcolor", Json.str (themeGrid theme))]),
    ("yaxis", Json.obj [
      ("title_font_color", Json.str (themeText theme)),
      ("tickfont_color", Json.str (themeText theme)),
      ("gridcolor", Json.str (themeGrid theme))]),
    ("dragmode", Json.bool false)]
  return attachConfig (figToJson [bar] layout_config)

/-- The complete `get_top_fundraisers` handler: the `except` branch returns
`{"error": str(e)}` (src/main.py lines 1309-1311). -/
def get_top_fundraisers_ep (year industry : Option String)
    (metric theme : String) (raw : Bool) (data : Option (List FundIn)) : Json :=
  match get_top_fundraisers_body year industry metric theme raw data with
  | .ok j => j
  | .error e => Json.obj [("error", Json.str e)]

/-- Response shape of the `charts/industry-distribution` and
`charts/location-distribution` backend endpoints. -/
structure DistResponse where
  distribution : List DistRec
deriving DecidableEq

/-- The hardcoded fallback distribution of `get_top_industries`
(src/main.py lines 771-777). -/
def industriesFallback : List DistRec :=
  [DistRec.nv "Technology" 850, DistRec.nv "Healthcare" 620,
   DistRec.nv "Financial Services" 480, DistRec.nv "Real Estate" 350,
   DistRec.nv "Energy" 280]

/-- The distribution list `get_top_industries` works on: backend data
truncated to 10 when present and non-empty, the fallback otherwise
(src/main.py lines 770-779). -/
def industriesSource (data : Option DistResponse) : List DistRec :=
  match data with
  | none => industriesFallback
  | some d => if d.distribution = [] then industriesFallback
      else d.distribution.take 10

/-- Filter-context suffix of `get_top_industries` (lines 826-836). -/
def industriesFilterText (year : Option String) (metric : String) : String :=
  let filter_context :=
    (if optParamActive year then ["Year: " ++ year.getD ""] else []) ++
    [if metric = "amount_sold" then "by Amount Sold"
     else if metric = "offering_amount" then "by Offering Amount"
     else "by Count"]
  " (" ++ String.intercalate ", " filter_context ++ ")"

/-- Body of `get_top_industries` (src/main.py lines 752-870).  The sort of
line 785 evaluates the raising key `x["value"]` per element, so the
embedding first demands every `value` be present and then sorts by it. -/
def get_top_industries_body (year : Option String) (metric theme : String)
    (raw : Bool) (data : Option DistResponse) : Except String Json := do
  let distribution := industriesSource data
  if raw then
    return Json.arr (distribution.map distRecToJson)
  else
  let _ ← mapExcept (fun item => pyIndex item.value "value") distribution
  let distribution := sortByAsc (fun x => x.value.getD 0) distribution
  let text_values ← mapExcept (fun item => do
    let v ← pyIndex item.value "value"
    if isAmountMetric metric then return format_currency_short v
    else return fmtCommaInt v) distribution
  let hover_template :=
    if isAmountMetric metric then
      "<b>%\x7by\x7d</b><br>Amount: %\x7bcustomdata\x7d<extra></extra>"
    else
      "<b>%\x7by\x7d</b><br>Filings: %\x7bx:,\x7d<extra></extra>"
  let customdata :=
    if isAmountMetric metric then Json.arr (text_values.map Json.str)
    else Json.null
  let xs ← mapExcept (fun item => pyIndex item.value "value") distribution
  let names ← mapExcept (fun item => pyIndex item.name "name") distribution
  let bar := Json.obj [
    ("type", Json.str "bar"),
    ("x", Json.arr (xs.map Json.num)),
    ("y", Json.arr (names.map (fun n => Json.str (pyTruncate 30 n)))),
    ("orientation", Json.str "h"),
    ("marker", Json.obj [("color", Json.str (themeMainLine theme))]),
    ("text", Json.arr (text_values.map Json.str)),
    ("textposition", Json.str "outside"),
    ("textfont", Json.obj [("color", Json.str (themeText theme)), ("size", Json.num 12)]),
    ("hovertemplate", Json.str hover_template),
    ("customdata", customdata)]
  let subtitle := "Real Form D data - most active sectors" ++
    industriesFilterText year metric
  let value_max ← pyMaxInt xs
  let layout_config := jsonUpdateMany (base_layout theme) [
    ("title", Json.obj [
      ("text", Json.str ("Top 10 Industries<br><sub style=\x27color:" ++
        themeText theme ++ "\x27>" ++ subtitle ++ "</sub>")),
      ("x", Json.rat 0.5),
      ("font", Json.obj [("size", Json.num 16), ("color", Json.str (themeText theme))])]),
    ("xaxis_title", Json.str (if isAmountMetric metric then "Amount ($)"
      else "Number of Filings")),
    ("height", Json.num 400),
    ("margin", Json.obj [("l", Json.num 150), ("r", Json.num 50),
      ("t", Json.num 80), ("b", Json.num 50)]),
    ("xaxis", Json.obj [
      ("range", Json.arr [Json.num 0, Json.rat ((value_max : Rat) * 1.1)]),
      ("title_font_color", Json.str (themeText theme)),
      ("tickfont_color", Json.str (themeText theme)),
      ("gridcolor", Json.str (themeGrid theme))]),
    ("yaxis", Json.obj [
      ("title_font_color", Json.str (themeText theme)),
      ("tickfont_color", Json.str (themeText theme)),
      ("gridcolor", Json.str (themeGrid theme))]),
    ("dragmode", Json.bool false)]
  return attachConfig (figToJson [bar] layout_config)

/-- The complete `get_top_industries` handler: the `except` branch returns
`{"error": str(e)}` (src/main.py lines 872-874). -/
def get_top_industries_ep (year : Option String) (metric theme : String)
    (raw : Bool) (data : Option DistResponse) : Json :=
  match get_top_industries_body year metric theme raw data with
  | .ok j => j
  | .error e => Json.obj [("error", Json.str e)]

/-- A point of the backend time-series responses (`time_series` /
`timeseries` items); every key may be absent. -/
structure TSPoint where
  date : Option String
  equity_amount : Option Int
  debt_amount : Option Int
  fund_amount : Option Int
  equity_filings : Option Int
  debt_filings : Option Int
  fund_filings : Option Int
  total_amount : Option Int
  filings : Option Int
deriving DecidableEq

/-- A time-series point with only a date and per-type filing counts. -/
def TSPoint.counts (d : String) (e db f : Int) : TSPoint :=
  ⟨some d, none, none, none, some e, some db, some f, none, none⟩

/-- Response shape of the `charts` / `charts/amount-raised-timeseries` /
`charts/industry-timeseries` backend endpoints, with `[]` modelling a
missing key (`data.get("time_series", [])` / `data.get("timeseries", [])`). -/
structure ChartsResponse where
  time_series : List TSPoint
  timeseries : List TSPoint
deriving DecidableEq

/-- The hardcoded fallback month labels of `get_monthly_activity`
(src/main.py lines 916-931): 2009-01 through 2024-12. -/
def fallbackMonths : List String :=
  ["2009-01", "2009-02", "2009-03", "2009-04", "2009-05", "2009-06",
   "2009-07", "2009-08", "2009-09", "2009-10", "2009-11", "2009-12",
   "2010-01", "2010-02", "2010-03", "2010-04", "2010-05", "2010-06",
   "2010-07", "2010-08", "2010-09", "2010-10", "2010-11", "2010-12",
   "2011-01", "2011-02", "2011-03", "2011-04", "2011-05", "2011-06",
   "2011-07", "2011-08", "2011-09", "2011-10", "2011-11", "2011-12",
   "2012-01", "2012-02", "2012-03", "2012-04", "2012-05", "2012-06",
   "2012-07", "2012-08", "2012-09", "2012-10", "2012-11", "2012-12",
   "2013-01", "2013-02", "2013-03", "2013-04", "2013-05", "2013-06",
   "2013-07", "2013-08", "2013-09", "2013-10", "2013-11", "2013-12",
   "2014-01", "2014-02", "2014-03", "2014-04", "2014-05", "2014-06",
   "2014-07", "2014-08", "2014-09", "2014-10", "2014-11", "2014-12",
   "2015-01", "2015-02", "2015-03", "2015-04", "2015-05", "2015-06",
   "2015-07", "2015-08", "2015-09", "2015-10", "2015-11", "2015-12",
   "2016-01", "2016-02", "2016-03", "2016-04", "2016-05", "2016-06",
   "2016-07", "2016-08", "2016-09", "2016-10", "2016-11", "2016-12",
   "2017-01", "2017-02", "2017-03", "2017-04", "2017-05", "2017-06",
   "2017-07", "2017-08", "2017-09", "2017-10", "2017-11", "2017-12",
   "2018-01", "2018-02", "2018-03", "2018-04", "2018-05", "2018-06",
   "2018-07", "2018-08", "2018-09", "2018-10", "2018-11", "2018-12",
   "2019-01", "2019-02", "2019-03", "2019-04", "2019-05", "2019-06",
   "2019-07", "2019-08", "2019-09", "2019-10", "2019-11", "2019-12",
   "2020-01", "2020-02", "2020-03", "2020-04", "2020-05", "2020-06",
   "2020-07", "2020-08", "2020-09", "2020-10", "2020-11", "2020-12",
   "2021-01", "2021-02", "2021-03", "2021-04", "2021-05", "2021-06",
   "2021-07", "2021-08", "2021-09", "2021-10", "2021-11", "2021-12",
   "2022-01", "2022-02", "2022-03", "2022-04", "2022-05", "2022-06",
   "2022-07", "2022-08", "2022-09", "2022-10", "2022-11", "2022-12",
   "2023-01", "2023-02", "2023-03", "2023-04", "2023-05", "2023-06",
   "2023-07", "2023-08", "2023-09", "2023-10", "2023-11", "2023-12",
   "2024-01", "2024-02", "2024-03", "2024-04", "2024-05", "2024-06",
   "2024-07", "2024-08", "2024-09", "2024-10", "2024-11", "2024-12"]

/-- Python `l[i]` inside the re-indexing comprehensions: raises on an
out-of-range index. -/
def pySelect {α : Type} (l : List α) (idx : List Nat) : Except String (List α) :=
  mapExcept (fun i =>
    match l.get? i with
    | some x => Except.ok x
    | none => Except.error "IndexError: list index out of range") idx

/-- The `for i, month in enumerate(months)` loop of src/main.py lines
981-986, carrying the running index: parse `int(month[:4])` and keep the
index when the year is at least 2009 and the month is not the current
month. -/
def filteredIndicesAux (current_month : String) :
    List String → Nat → Except String (List Nat)
  | [], _ => .ok []
  | month :: rest, i => do
    let year ← pyInt (month.take 4)
    let tail ← filteredIndicesAux current_month rest (i + 1)
    if 2009 ≤ year ∧ month ≠ current_month then return i :: tail
    else return tail

/-- `filtered_indices` of `get_monthly_activity` (lines 981-986). -/
def filtered_indices (months : List String) (current_month : String) :
    Except String (List Nat) :=
  filteredIndicesAux current_month months 0

/-- The month/equity/debt/fund arrays built from a backend response by
`get_monthly_activity` (src/main.py lines 946-978), before filtering. -/
def monthlyArrays (metric industry : String) (d : ChartsResponse) :
    Except String (List String × List Int × List Int × List Int) := do
  if industryActive industry then
    let time_series := d.timeseries
    let months ← mapExcept (fun item => pyIndex item.date "date") time_series
    if isAmountMetric metric then
      let total_data := time_series.map (fun item => item.total_amount.getD 0)
      return (months, total_data, List.replicate total_data.length 0,
        List.replicate total_data.length 0)
    else
      let total_data := time_series.map (fun item => item.filings.getD 0)
      return (months, total_data, List.replicate total_data.length 0,
        List.replicate total_data.length 0)
  else
    let time_series := d.time_series
    let months ← mapExcept (fun item => pyIndex item.date "date") time_series
    if metric = "offering_amount" then
      return (months, time_series.map (fun item => item.equity_amount.getD 0),
        time_series.map (fun item => item.debt_amount.getD 0),
        time_series.map (fun item => item.fund_amount.getD 0))
    else if metric = "amount_sold" then
      return (months, time_series.map (fun item => item.equity_amount.getD 0),
        time_series.map (fun item => item.debt_amount.getD 0),
        time_series.map (fun item => item.fund_amount.getD 0))
    else
      return (months, time_series.map (fun item => item.equity_filings.getD 0),
        time_series.map (fun item => item.debt_filings.getD 0),
        time_series.map (fun item => item.fund_filings.getD 0))

/-- The filtering applied to the four arrays (src/main.py lines 980-992):
the index filter of `filtered_indices` applied to each array. -/
def monthlyApplyFilter (months : List String)
    (equity_data debt_data fund_data : List Int) (current_month : String) :
    Except String (List String × List Int × List Int × List Int) := do
  let idx ← filtered_indices months current_month
  let months ← pySelect months idx
  let equity_data ← pySelect equity_data idx
  let debt_data ← pySelect debt_data idx
  let fund_data ← pySelect fund_data idx
  return (months, equity_data, debt_data, fund_data)

/-- The data-shaping stage of `get_monthly_activity` (src/main.py lines
908-992): fallback month/series construction when the fetch failed,
otherwise array extraction followed by the year-2009/current-month index
filter. -/
def monthlyData (metric industry current_month : String)
    (data : Option ChartsResponse) :
    Except String (List String × List Int × List Int × List Int) := do
  match data with
  | none =>
    let months := fallbackMonths.filter (fun m => m ≠ current_month)
    if isAmountMetric metric then
      return (months,
        (List.range months.length).map (fun i => 500000000 + Int.ofNat i * 10000000),
        (List.range months.length).map (fun i => 200000000 + Int.ofNat i * 5000000),
        (List.range months.length).map (fun i => 150000000 + Int.ofNat i * 3000000))
    else
      return (months,
        (List.range months.length).map (fun i => 120 + Int.ofNat i),
        (List.range months.length).map (fun i => 45 + (Int.ofNat i).fdiv 2),
        (List.range months.length).map (fun i => 25 + (Int.ofNat i).fdiv 3))
  | some d =>
    let (months, equity_data, debt_data, fund_data) ← monthlyArrays metric industry d
    monthlyApplyFilter months equity_data debt_data fund_data current_month

/-- One `go.Scatter` trace of `get_monthly_activity` (lines 1071-1102). -/
def monthlyScatter (months : List String) (ys : List Int) (name color : String)
    (hover_tmpl : String) (customdata : Json) (theme : String) : Json :=
  Json.obj [
    ("type", Json.str "scatter"),
    ("x", Json.arr (months.map Json.str)),
    ("y", Json.arr (ys.map Json.num)),
    ("mode", Json.str "lines+markers"),
    ("name", Json.str name),
    ("line", Json.obj [("color", Json.str color), ("width", Json.num 3)]),
    ("marker", Json.obj [("size", Json.num 6)]),
    ("hovertemplate", Json.str hover_tmpl),
    ("customdata", customdata),
    ("hoverlabel", Json.obj [
      ("bgcolor", Json.str (if theme ≠ "light" then "#111827" else "white")),
      ("bordercolor", Json.str (if theme ≠ "light" then "#374151" else "#E5E7EB")),
      ("font", Json.obj [("color", Json.str (themeText theme))])])]

/-- The raw record list built by `get_monthly_activity` when `raw=true`
(src/main.py lines 995-1004), with the guarded indexing embedded as
`(l.get? i).getD 0`. -/
def monthlyRawJson (months : List String)
    (equity_data debt_data fund_data : List Int) : Json :=
  Json.arr (months.enum.map (fun p =>
    Json.obj [
      ("month", Json.str p.2),
      ("equity", Json.num ((equity_data.get? p.1).getD 0)),
      ("debt", Json.num ((debt_data.get? p.1).getD 0)),
      ("fund", Json.num ((fund_data.get? p.1).getD 0))]))

/-- The presentation stage of `get_monthly_activity` (src/main.py lines
994-1155): raw record list, or the scatter chart with the toolbar config
attached. -/
def monthlyRender (metric industry theme : String) (raw : Bool)
    (months : List String) (equity_data debt_data fund_data : List Int) :
    Except String Json := do
  if raw then
    return monthlyRawJson months equity_data debt_data fund_data
  else
  let amount := isAmountMetric metric
  let ind := industryActive industry
  let equity_name :=
    if ind then
      if amount then industry ++ " - Total Amount" else industry ++ " - Filings"
    else
      if amount then "Equity" else "Equity Filings"
  let debt_name := if amount then "Debt" else "Debt Filings"
  let fund_name := if amount then "Fund" else "Fund Filings"
  let y_title := if amount then "Amount ($)" else "Number of Filings"
  let hover_tmpl :=
    if amount then
      "<b>%\x7bx\x7d</b><br><b>%\x7bfullData.name\x7d</b>: %\x7bcustomdata\x7d<extra></extra>"
    else
      "<b>%\x7bx\x7d</b><br><b>%\x7bfullData.name\x7d</b>: %\x7by:,.0f\x7d filings<extra></extra>"
  let equity_customdata :=
    if amount then
      Json.arr (equity_data.map (fun v => Json.str (format_currency_short v)))
    else Json.null
  let debt_customdata :=
    if amount then
      Json.arr (debt_data.map (fun v => Json.str (format_currency_short v)))
    else Json.null
  let fund_customdata :=
    if amount then
      Json.arr (fund_data.map (fun v => Json.str (format_currency_short v)))
    else Json.null
  let traces :=
    if ind then
      [monthlyScatter months equity_data equity_name "#3B82F6" hover_tmpl
        equity_customdata theme]
    else
      [monthlyScatter months equity_data equity_name "#3B82F6" hover_tmpl
        equity_customdata theme,
       monthlyScatter months debt_data debt_name "#F59E0B" hover_tmpl
        debt_customdata theme,
       monthlyScatter months fund_data fund_name "#10B981" hover_tmpl
        fund_customdata theme]
  let base_subtitle :=
    if metric = "offering_amount" then "offering amounts over time"
    else if metric = "amount_sold" then "amounts sold over time"
    else "filings over time"
  let filter_text :=
    if ind then " (Industry: " ++ industry ++ ")" else ""
  let subtitle := "Real Form D data - " ++ base_subtitle ++ filter_text
  let equity_max ← pyMaxInt equity_data
  let debt_max ← pyMaxInt debt_data
  let fund_max ← pyMaxInt fund_data
  let y_max := max equity_max (max debt_max fund_max)
  let layout_config := jsonUpdateMany (base_layout theme) [
    ("title", Json.obj [
      ("text", Json.str ("Monthly Filing Activity<br><sub style=\x27color:" ++
        themeText theme ++ "\x27>" ++ subtitle ++ "</sub>")),
      ("x", Json.rat 0.5),
      ("font", Json.obj [("size", Json.num 16), ("color", Json.str (themeText theme))])]),
    ("xaxis_title", Json.str "Month"),
    ("yaxis_title", Json.str y_title),
    ("height", Json.num 500),
    ("hovermode", Json.str "x"),
    ("margin", Json.obj [("l", Json.num 80), ("r", Json.num 50),
      ("t", Json.num 80), ("b", Json.num 80)]),
    ("xaxis", Json.obj [
      ("title_font_color", Json.str (themeText theme)),
      ("tickfont_color", Json.str (themeText theme)),
      ("gridcolor", Json.str (themeGrid theme))]),
    ("yaxis", Json.obj [
      ("range", Json.arr [Json.num 0, Json.rat ((y_max : Rat) * 1.1)]),
      ("title_font_color", Json.str (themeText theme)),
      ("tickfont_color", Json.str (themeText theme)),
      ("gridcolor", Json.str (themeGrid theme))]),
    ("legend", Json.obj [
      ("font", Json.obj [("color", Json.str (themeText theme)), ("size", Json.num 12)])]),
    ("dragmode", Json.bool false)]
  return attachConfig (figToJson traces layout_config)

/-- Body of `get_monthly_activity` (src/main.py lines 876-1155), with the
current month (`datetime.now().strftime("%Y-%m")`) passed in. -/
def get_monthly_activity_body (metric industry theme : String) (raw : Bool)
    (current_month : String) (data : Option ChartsResponse) :
    Except String Json := do
  let (months, equity_data, debt_data, fund_data) ←
    monthlyData metric industry current_month data
  monthlyRender metric industry theme raw months equity_data debt_data fund_data

/-- The complete `get_monthly_activity` handler: the `except` branch
returns `{"error": str(e)}` (src/main.py lines 1157-1159). -/
def get_monthly_activity_ep (metric industry theme : String) (raw : Bool)
    (current_month : String) (data : Option ChartsResponse) : Json :=
  match get_monthly_activity_body metric industry theme raw current_month data with
  | .ok j => j
  | .error e => Json.obj [("error", Json.str e)]

/-- The final hardcoded fallback of `get_location_distribution`
(src/main.py lines 1371-1382). -/
def locationFallbackDist : List DistRec :=
  [DistRec.nv "CA" 450, DistRec.nv "NY" 380, DistRec.nv "TX" 320,
   DistRec.nv "FL" 280, DistRec.nv "IL" 250, DistRec.nv "MA" 220,
   DistRec.nv "WA" 200, DistRec.nv "GA" 180, DistRec.nv "NC" 160,
   DistRec.nv "VA" 140]

/-- The endpoint string `get_location_distribution` fetches (src/main.py
lines 1320-1336), including the time-stamped cache-busting `_t` parameter
appended when a specific year is selected. -/
def location_endpoint_string (year : Option String) (metric : String)
    (t : Nat) : String :=
  let params :=
    (if optParamActive year then ["year=" ++ year.getD ""] else []) ++
    (if metric ≠ "" then ["metric=" ++ metric] else [])
  let endpoint := "charts/location-distribution?" ++
    String.intercalate "&" params
  if optParamActive year then endpoint ++ "&_t=" ++ toString t else endpoint

/-- The distribution list `get_location_distribution` works on (src/main.py
lines 1355-1389): the primary fetch result truncated to 25 when usable,
otherwise the all-years fallback fetch truncated to 25, otherwise the
hardcoded list. -/
def locationSource (data fallback_data : Option DistResponse) : List DistRec :=
  match data with
  | some d =>
    if d.distribution = [] then
      match fallback_data with
      | some fb => if fb.distribution = [] then locationFallbackDist
          else fb.distribution.take 25
      | none => locationFallbackDist
    else d.distribution.take 25
  | none =>
    match fallback_data with
    | some fb => if fb.distribution = [] then locationFallbackDist
        else fb.distribution.take 25
    | none => locationFallbackDist

/-- Filter-context suffix of `get_location_distribution`
(lines 1435-1445). -/
def locationFilterText (year : Option String) (metric : String) : String :=
  let filter_context :=
    (if optParamActive year then ["Year: " ++ year.getD ""] else []) ++
    [if metric = "amount_sold" then "by Amount Sold"
     else if metric = "offering_amount" then "by Offering Amount"
     else "by Count"]
  " (" ++ String.intercalate ", " filter_context ++ ")"

/-- Body of `get_location_distribution` (src/main.py lines 1313-1497), with
both fetch results passed in. -/
def get_location_distribution_body (year : Option String)
    (metric theme : String) (raw : Bool) (t : Nat)
    (data fallback_data : Option DistResponse) : Except String Json := do
  let _endpoint := location_endpoint_string year metric t
  let distribution := locationSource data fallback_data
  if raw then
    return Json.arr (distribution.map distRecToJson)
  else
  let is_amount_metric := isAmountMetric metric
  let hover_texts ← mapExcept (fun item => do
    let name ← pyIndex item.name "name"
    let v ← pyIndex item.value "value"
    if is_amount_metric then
      return name ++ ": " ++ format_currency_short v
    else
      return name ++ ": " ++ fmtCommaInt v ++ " filings") distribution
  let colorbar_title_text :=
    if is_amount_metric then "Amount ($)" else "Number of Filings"
  let locations ← mapExcept (fun item => pyIndex item.name "name") distribution
  let zs ← mapExcept (fun item => pyIndex item.value "value") distribution
  let choropleth := Json.obj [
    ("type", Json.str "choropleth"),
    ("locations", Json.arr (locations.map Json.str)),
    ("z", Json.arr (zs.map Json.num)),
    ("locationmode", Json.str "USA-states"),
    ("colorscale", Json.str "Blues"),
    ("text", Json.arr (hover_texts.map Json.str)),
    ("hovertemplate", Json.str "<b>%\x7btext\x7d</b><extra></extra>"),
    ("colorbar", Json.obj [
      ("title", Json.obj [
        ("text", Json.str colorbar_title_text),
        ("font", Json.obj [("color", Json.str (themeText theme))])]),
      ("tickfont", Json.obj [("color", Json.str (themeText theme))])])]
  let filter_text := locationFilterText year metric
  let total_value := distribution.foldl (fun a x => a + x.value.getD 0) 0
  let total_value_formatted :=
    if is_amount_metric then format_currency_short total_value
    else fmtCommaInt total_value
  let subtitle :=
    if optParamActive year then
      if 100000 < total_value then
        "Year " ++ year.getD "" ++ " selected - " ++ total_value_formatted ++
          " total (⚠️ May show all years data)"
      else
        "Year " ++ year.getD "" ++ " data - " ++ total_value_formatted ++
          " total across " ++ toString distribution.length ++ " states"
    else
      "All years data - " ++ total_value_formatted ++ " total across " ++
        toString distribution.length ++ " states"
  let subtitle := subtitle ++ " " ++ filter_text
  let layout_config := jsonUpdateMany (base_layout theme) [
    ("title", Json.obj [
      ("text", Json.str ("Geographic Distribution<br><sub style=\x27color:" ++
        themeText theme ++ "\x27>" ++ subtitle ++ "</sub>")),
      ("x", Json.rat 0.5),
      ("font", Json.obj [("size", Json.num 16), ("color", Json.str (themeText theme))])]),
    ("geo", Json.obj [
      ("scope", Json.str "usa"),
      ("projection", Json.obj [("type", Json.str "albers usa")]),
      ("showlakes", Json.bool true),
      ("lakecolor", Json.str "rgb(255, 255, 255)"),
      ("bgcolor", Json.str (themeBackground theme)),
      ("landcolor", Json.str "rgba(255,255,255,0.1)"),
      ("coastlinecolor", Json.str "rgba(255,255,255,0.3)"),
      ("showland", Json.bool true),
      ("showcoastlines", Json.bool true),
      ("showocean", Json.bool true),
      ("oceancolor", Json.str (themeBackground theme))]),
    ("height", Json.num 600),
    ("margin", Json.obj [("l", Json.num 50), ("r", Json.num 50),
      ("t", Json.num 80), ("b", Json.num 50)]),
    ("dragmode", Json.bool false)]
  return attachConfig (figToJson [choropleth] layout_config)

/-- The complete `get_location_distribution` handler: the `except` branch
returns `{"error": str(e)}` (src/main.py lines 1499-1501). -/
def get_location_distribution_ep (year : Option String)
    (metric theme : String) (raw : Bool) (t : Nat)
    (data fallback_data : Option DistResponse) : Json :=
  match get_location_distribution_body year metric theme raw t data fallback_data with
  | .ok j => j
  | .error e => Json.obj [("error", Json.str e)]

/-- An entry of `yearly_data` in `get_yearly_statistics` (both keys always
present by construction, lines 1534 and 1570). -/
structure YearRec where
  year : String
  value : Int
deriving DecidableEq

/-- `yearly_totals[year] += value` on the insertion-ordered dict
(src/main.py lines 1549-1551 / 1565-1567). -/
def addTotal : List (String × Int) → String → Int → List (String × Int)
  | [], k, v => [(k, v)]
  | (k', v') :: rest, k, v =>
    if k' = k then (k, v' + v) :: rest else (k', v') :: addTotal rest k v

/-- The monthly-to-yearly aggregation loop of `get_yearly_statistics`
(src/main.py lines 1537-1567): keys are `item["date"][:4]` (raising when
`date` is absent), values accumulate the metric-appropriate per-point
value. -/
def yearlyTotals (metric industry : String) (d : ChartsResponse) :
    Except String (List (String × Int)) :=
  if industryActive industry then
    d.timeseries.foldlM (fun m item => do
      let date ← pyIndex item.date "date"
      let year := date.take 4
      let value :=
        if isAmountMetric metric then item.total_amount.getD 0
        else item.filings.getD 0
      return addTotal m year value) []
  else
    d.time_series.foldlM (fun m item => do
      let date ← pyIndex item.date "date"
      let year := date.take 4
      let value :=
        if metric = "offering_amount" then
          item.equity_amount.getD 0 + item.debt_amount.getD 0 +
            item.fund_amount.getD 0
        else if metric = "amount_sold" then
          item.equity_amount.getD 0 + item.debt_amount.getD 0 +
            item.fund_amount.getD 0
        else
          item.equity_filings.getD 0 + item.debt_filings.getD 0 +
            item.fund_filings.getD 0
      return addTotal m year value) []

/-- The `int(year) >= 2009` filter comprehension over the key-sorted totals
(src/main.py line 1570), evaluating `int` left to right. -/
def yearlyFilter : List (String × Int) → Except String (List YearRec)
  | [] => .ok []
  | (year, total) :: rest => do
    let y ← pyInt year
    let tail ← yearlyFilter rest
    if 2009 ≤ y then return ⟨year, total⟩ :: tail else return tail

/-- The fallback yearly data of `get_yearly_statistics`
(src/main.py lines 1525-1534). -/
def yearlyFallback (metric : String) : List YearRec :=
  let years := ["2009", "2010", "2011", "2012", "2013", "2014", "2015",
    "2016", "2017", "2018", "2019", "2020", "2021", "2022", "2023", "2024"]
  let values : List Int :=
    if metric = "offering_amount" then
      [2000000000, 2500000000, 3000000000, 3500000000, 4000000000,
       4500000000, 5000000000, 5500000000, 6000000000, 6500000000,
       7000000000, 7500000000, 8000000000, 8500000000, 9000000000,
       9500000000]
    else if metric = "amount_sold" then
      [1500000000, 2000000000, 2500000000, 3000000000, 3500000000,
       4000000000, 4500000000, 5000000000, 5500000000, 6000000000,
       6500000000, 7000000000, 7500000000, 8000000000, 8500000000,
       9000000000]
    else
      [500, 600, 700, 800, 900, 1000, 1100, 1200, 1300, 1400, 1500, 1600,
       1700, 1800, 1900, 2000]
  (years.zip values).map (fun p => ⟨p.1, p.2⟩)

/-- The `yearly_data` list of `get_yearly_statistics` (src/main.py lines
1524-1570): fallback table, or aggregation of the fetched time series
sorted by year and filtered to years at least 2009. -/
def yearlyData (metric industry : String) (data : Option ChartsResponse) :
    Except String (List YearRec) := do
  match data with
  | none => return yearlyFallback metric
  | some d =>
    let totals ← yearlyTotals metric industry d
    yearlyFilter (sortByStrAsc (fun kv => kv.1) totals)

/-- Filter-context suffix of `get_yearly_statistics` (lines 1622-1632). -/
def yearlyFilterText (industry metric : String) : String :=
  let filter_context :=
    (if industryActive industry then ["Industry: " ++ industry] else []) ++
    [if metric = "amount_sold" then "by Amount Sold"
     else if metric = "offering_amount" then "by Offering Amount"
     else "by Count"]
  " (" ++ String.intercalate ", " filter_context ++ ")"

/-- Body of `get_yearly_statistics` (src/main.py lines 1503-1666). -/
def get_yearly_statistics_body (metric industry theme : String) (raw : Bool)
    (data : Option ChartsResponse) : Except String Json := do
  let yearly_data ← yearlyData metric industry data
  if raw then
    return Json.arr (yearly_data.map (fun r =>
      Json.obj [("year", Json.str r.year), ("value", Json.num r.value)]))
  else
  let yearly_data := sortByStrAsc (fun r => r.year) yearly_data
  let years := yearly_data.map (fun r => r.year)
  let values := yearly_data.map (fun r => r.value)
  let text_values :=
    if isAmountMetric metric then values.map format_currency_short
    else values.map fmtCommaInt
  let y_title :=
    if isAmountMetric metric then "Amount ($)" else "Number of Filings"
  let hover_template :=
    if isAmountMetric metric then
      "<b>%\x7bx\x7d</b><br>Amount: %\x7bcustomdata\x7d<extra></extra>"
    else
      "<b>%\x7bx\x7d</b><br>Filings: %\x7by:,.0f\x7d<extra></extra>"
  let bar := Json.obj [
    ("type", Json.str "bar"),
    ("x", Json.arr (years.map Json.str)),
    ("y", Json.arr (values.map Json.num)),
    ("marker", Json.obj [("color", Json.str (themeMainLine theme))]),
    ("text", Json.arr (text_values.map Json.str)),
    ("textposition", Json.str "outside"),
    ("textfont", Json.obj [("color", Json.str (themeText theme)), ("size", Json.num 12)]),
    ("hovertemplate", Json.str hover_template),
    ("customdata", Json.arr (text_values.map Json.str))]
  let subtitle := "Annual totals by year" ++ yearlyFilterText industry metric
  let layout_config := jsonUpdateMany (base_layout theme) [
    ("title", Json.obj [
      ("text", Json.str ("Yearly Statistics<br><sub style=\x27color:" ++
        themeText theme ++ "\x27>" ++ subtitle ++ "</sub>")),
      ("x", Json.rat 0.5),
      ("font", Json.obj [("size", Json.num 16), ("color", Json.str (themeText theme))])]),
    ("xaxis_title", Json.str "Year"),
    ("yaxis_title", Json.str y_title),
    ("height", Json.num 500),
    ("margin", Json.obj [("l", Json.num 80), ("r", Json.num 50),
      ("t", Json.num 80), ("b", Json.num 80)]),
    ("xaxis", Json.obj [
      ("title_font_color", Json.str (themeText theme)),
      ("tickfont_color", Json.str (themeText theme)),
      ("gridcolor", Json.str (themeGrid theme))]),
    ("yaxis", Json.obj [
      ("title_font_color", Json.str (themeText theme)),
      ("tickfont_color", Json.str (themeText theme)),
      ("gridcolor", Json.str (themeGrid theme))]),
    ("dragmode", Json.bool false)]
  return attachConfig (figToJson [bar] layout_config)

/-- The complete `get_yearly_statistics` handler (src/main.py lines
1668-1670 for the `except` branch). -/
def get_yearly_statistics_ep (metric industry theme : String) (raw : Bool)
    (data : Option ChartsResponse) : Json :=
  match get_yearly_statistics_body metric industry theme raw data with
  | .ok j => j
  | .error e => Json.obj [("error", Json.str e)]

/-- Python `a or b or ... or default` over optional strings (each operand
falsy when absent or empty). -/
def firstTruthyStr (l : List (Option String)) (dflt : String) : String :=
  match l with
  | [] => dflt
  | o :: rest =>
    match o with
    | some s => if s ≠ "" then s else firstTruthyStr rest dflt
    | none => firstTruthyStr rest dflt

/-- A raw filing record of the backend `filings` response (every key may be
absent; `filing_date` is kept as the string `str(...)` produces). -/
structure FilingIn where
  display_name : Option String
  company_name : Option String
  formatted_offering : Option String
  formatted_sold : Option String
  display_location : Option String
  city : Option String
  state : Option String
  security_type : Option String
  industry : Option String
  filing_date : Option String
deriving DecidableEq

/-- Response shape of the `filings?page=1&per_page=15` backend endpoint. -/
structure FilingsResponse where
  data : List FilingIn
deriving DecidableEq

/-- The hardcoded fallback table of `get_latest_filings`
(src/main.py lines 516-557). -/
def latestFallback : Json :=
  Json.arr [
    Json.obj [("company", Json.str "TechCorp Inc"),
      ("amount", Json.str "$500.0M"), ("type", Json.str "Equity"),
      ("industry", Json.str "Technology"),
      ("location", Json.str "San Francisco, CA"),
      ("date", Json.str "2024-08-20")],
    Json.obj [("company", Json.str "HealthVentures LLC"),
      ("amount", Json.str "$250.0M"), ("type", Json.str "Equity"),
      ("industry", Json.str "Healthcare"),
      ("location", Json.str "Boston, MA"),
      ("date", Json.str "2024-08-19")],
    Json.obj [("company", Json.str "GreenEnergy Partners"),
      ("amount", Json.str "$150.0M"), ("type", Json.str "Fund"),
      ("industry", Json.str "Energy"),
      ("location", Json.str "Austin, TX"),
      ("date", Json.str "2024-08-18")],
    Json.obj [("company", Json.str "FinTech Solutions"),
      ("amount", Json.str "$100.0M"), ("type", Json.str "Debt"),
      ("industry", Json.str "Financial Services"),
      ("location", Json.str "New York, NY"),
      ("date", Json.str "2024-08-17")],
    Json.obj [("company", Json.str "RealEstate Holdings"),
      ("amount", Json.str "$75.0M"), ("type", Json.str "Equity"),
      ("industry", Json.str "Real Estate"),
      ("location", Json.str "Miami, FL"),
      ("date", Json.str "2024-08-16")]]

/-- The per-filing row construction of `get_latest_filings`
(src/main.py lines 563-580). -/
def filingRow (filing : FilingIn) : Json :=
  let company_name :=
    firstTruthyStr [filing.display_name, filing.company_name] "Unknown Company"
  let amount :=
    firstTruthyStr [filing.formatted_offering, filing.formatted_sold] "N/A"
  let location :=
    firstTruthyStr [filing.display_location]
      (filing.city.getD "Unknown" ++ ", " ++ filing.state.getD "Unknown")
  let industry_display := firstTruthyStr [filing.industry] "Unknown"
  Json.obj [
    ("company", Json.str (pyTruncate 45 company_name)),
    ("amount", Json.str amount),
    ("type", Json.str (firstTruthyStr [filing.security_type] "Unknown")),
    ("industry", Json.str (if 20 < (filing.industry.getD "").length then
      industry_display.take 20 ++ "..." else industry_display)),
    ("location", Json.str (pyTruncate 25 location)),
    ("date", Json.str (firstTruthyStr [filing.filing_date] "Unknown"))]

/-- Body of `get_latest_filings` (src/main.py lines 507-582). -/
def get_latest_filings_body (data : Option FilingsResponse) :
    Except String Json := do
  match data with
  | none => return latestFallback
  | some d =>
    if d.data = [] then return latestFallback
    else
      let filings := d.data.take 15
      return Json.arr (filings.map filingRow)

/-- The complete `get_latest_filings` handler: the `except` branch returns
`[{"error": str(e)}]` (src/main.py lines 584-586). -/
def get_latest_filings_ep (data : Option FilingsResponse) : Json :=
  match get_latest_filings_body data with
  | .ok j => j
  | .error e => Json.arr [Json.obj [("error", Json.str e)]]

/-- Response shape of the `stats` backend endpoint as read by
`get_form_d_intro`. -/
structure StatsResponse where
  total_filings : Option Int
  total_offering_amount : Option String
deriving DecidableEq

/-- Body of `get_form_d_intro` (src/main.py lines 482-501): a markdown
string built from the stats fetch, with per-field defaults. -/
def get_form_d_intro_body (stats : Option StatsResponse) :
    Except String Json := do
  let total_filings :=
    match stats with
    | some s => fmtCommaInt (s.total_filings.getD 2450)
    | none => "2,450+"
  let total_raised :=
    match stats with
    | some s => s.total_offering_amount.getD "$125B+"
    | none => "$125B+"
  return Json.str ("# Form D Filings Dashboard\n\n" ++
    "Real-time analytics of SEC Form D filings - tracking private equity, debt, and fund offerings across the US.\n\n" ++
    "**" ++ total_filings ++ "** filings tracked • **" ++ total_raised ++
    "** in offerings • Updated from SEC EDGAR database\n\n" ++
    "Form D filings provide insights into private market activity including venture capital, private equity, debt offerings, and investment fund formations.\n")

/-- The complete `get_form_d_intro` handler (src/main.py lines 503-505 for
the `except` branch). -/
def get_form_d_intro_ep (stats : Option StatsResponse) : Json :=
  match get_form_d_intro_body stats with
  | .ok j => j
  | .error _ =>
    Json.str "# Form D Filings Dashboard\n\nError loading introduction content."

/-- The `int(year) >= 2009` filter comprehension of `get_available_years`
(src/main.py line 1682). -/
def availableYearsFilter : List String → Except String (List String)
  | [] => .ok []
  | year :: rest => do
    let y ← pyInt year
    let tail ← availableYearsFilter rest
    if 2009 ≤ y then return year :: tail else return tail

/-- The static fallback year options of `get_available_years`
(src/main.py lines 1690-1711). -/
def availableYearsFallback : Json :=
  Json.obj [("years", Json.arr (
    Json.obj [("label", Json.str "All Years"), ("value", Json.str "all")] ::
    (["2025", "2024", "2023", "2022", "2021", "2020", "2019", "2018",
      "2017", "2016", "2015", "2014", "2013", "2012", "2011", "2010",
      "2009"].map (fun y =>
      Json.obj [("label", Json.str y), ("value", Json.str y)]))))]

/-- Body of `get_available_years` (src/main.py lines 1672-1711). -/
def get_available_years_body (data : Option SecDistResponse) :
    Except String Json := do
  match data with
  | none => return availableYearsFallback
  | some d =>
    if d.available_years = [] then return availableYearsFallback
    else
      let years ← availableYearsFilter d.available_years
      let options :=
        Json.obj [("label", Json.str "All Years"), ("value", Json.str "all")] ::
        (sortStrDesc years).map (fun y =>
          Json.obj [("label", Json.str y), ("value", Json.str y)])
      return Json.obj [("years", Json.arr options)]

/-- The complete `get_available_years` handler (src/main.py lines
1712-1714 for the `except` branch). -/
def get_available_years_ep (data : Option SecDistResponse) : Json :=
  match get_available_years_body data with
  | .ok j => j
  | .error _ =>
    Json.obj [("years", Json.arr [Json.obj [
      ("label", Json.str "All Years"), ("value", Json.str "all")]])]

/-- `read_root` (src/main.py lines 101-110), with the default backend URL
constant. -/
def read_root_ep : Json :=
  Json.obj [
    ("name", Json.str "Form D Analytics Hub"),
    ("status", Json.str "running"),
    ("backend", Json.str "https://web-production-570e.up.railway.app"),
    ("data_source", Json.str "SEC Form D Filings"),
    ("description", Json.str "Private placement fundraising analytics from SEC Form D filings")]

/-! ## General lemmas about the embedded sorts -/

theorem sortByDesc_sorted {α : Type} (key : α → Int) (l : List α) :
    List.Sorted (fun a b => key b ≤ key a) (sortByDesc key l) := by
  haveI : IsTotal α (fun a b => key b ≤ key a) :=
    ⟨fun a b => (le_total (key b) (key a)).elim Or.inl Or.inr⟩
  haveI : IsTrans α (fun a b => key b ≤ key a) :=
    ⟨fun _ _ _ h1 h2 => le_trans h2 h1⟩
  exact List.sorted_insertionSort _ l

theorem sortByDesc_perm {α : Type} (key : α → Int) (l : List α) :
    (sortByDesc key l).Perm l :=
  List.perm_insertionSort _ l

theorem sortByAsc_sorted {α : Type} (key : α → Int) (l : List α) :
    List.Sorted (fun a b => key a ≤ key b) (sortByAsc key l) := by
  haveI : IsTotal α (fun a b => key a ≤ key b) :=
    ⟨fun a b => (le_total (key a) (key b)).elim Or.inl Or.inr⟩
  haveI : IsTrans α (fun a b => key a ≤ key b) :=
    ⟨fun _ _ _ h1 h2 => le_trans h1 h2⟩
  exact List.sorted_insertionSort _ l

theorem sortByAsc_perm {α : Type} (key : α → Int) (l : List α) :
    (sortByAsc key l).Perm l :=
  List.perm_insertionSort _ l

/-! ## C9: the theme resolver -/

/-- C9: for every theme argument, including "light" and the two known
identifiers, `get_theme_colors` returns the same fixed palette
(main_line #3B82F6, background rgba(0,0,0,0), text white, grid
rgba(255,255,255,0.1)); the theme argument affects only the hoverlabel
background and border colors chosen in `base_layout` (light values exactly
when the theme equals "light", dark values otherwise). -/
theorem C9_theme_fixed_palette (t : String) :
    get_theme_colors t =
      [("main_line", "#3B82F6"), ("background", "rgba(0,0,0,0)"),
       ("text", "white"), ("grid", "rgba(255,255,255,0.1)")] ∧
    base_layout t = base_layout_core
      (if t = "light" then "white" else "#111827")
      (if t = "light" then "#E5E7EB" else "#374151") := by
  refine ⟨rfl, ?_⟩
  by_cases h : t = "light" <;>
    simp [base_layout, base_layout_core, h, themeBackground, themeText, themeGrid]

/-! ## C5: the short currency formatter -/

/-- C5: `format_currency_short` selects its suffix by magnitude thresholds
1e12 (T), 1e9 (B), 1e6 (M), 1e3 (K), otherwise renders a plain integer with
thousands separators, always prefixes the dollar sign, uses one decimal
place for abbreviated forms, and preserves the sign of negative inputs
(threshold on the absolute value, sign on the divided value); in particular
1500000 renders "$1.5M", 2300000000 renders "$2.3B" and 999 renders
"$999". -/
theorem C5_format_currency_short (v : Int) :
    format_currency_short 1500000 = "$1.5M" ∧
    format_currency_short 2300000000 = "$2.3B" ∧
    format_currency_short 999 = "$999" ∧
    format_currency_short 2500000000000 = "$2.5T" ∧
    format_currency_short 45200 = "$45.2K" ∧
    format_currency_short 1234567 = "$1.2M" ∧
    format_currency_short (-1500000) = "$-1.5M" ∧
    format_currency_short (-999) = "$-999" ∧
    (1000000000000 ≤ v.natAbs →
      format_currency_short v = "$" ++ fmtFixed1Div v 1000000000000 ++ "T") ∧
    (1000000000 ≤ v.natAbs → v.natAbs < 1000000000000 →
      format_currency_short v = "$" ++ fmtFixed1Div v 1000000000 ++ "B") ∧
    (1000000 ≤ v.natAbs → v.natAbs < 1000000000 →
      format_currency_short v = "$" ++ fmtFixed1Div v 1000000 ++ "M") ∧
    (1000 ≤ v.natAbs → v.natAbs < 1000000 →
      format_currency_short v = "$" ++ fmtFixed1Div v 1000 ++ "K") ∧
    (v.natAbs < 1000 → format_currency_short v = "$" ++ fmtCommaInt v) := by
  refine ⟨by decide, by decide, by decide, by decide, by decide, by decide,
    by decide, by decide, ?_, ?_, ?_, ?_, ?_⟩
  · intro h
    simp only [format_currency_short, ge_iff_le]
    rw [if_pos h]
  · intro h1 h2
    simp only [format_currency_short, ge_iff_le]
    rw [if_neg (by omega), if_pos h1]
  · intro h1 h2
    simp only [format_currency_short, ge_iff_le]
    rw [if_neg (by omega), if_neg (by omega), if_pos h1]
  · intro h1 h2
    simp only [format_currency_short, ge_iff_le]
    rw [if_neg (by omega), if_neg (by omega), if_neg (by omega), if_pos h1]
  · intro h
    simp only [format_currency_short, ge_iff_le]
    rw [if_neg (by omega), if_neg (by omega), if_neg (by omega),
      if_neg (by omega)]

/-- Witness for C5: the K branch applied at 5000. -/
theorem C5_format_currency_short_witness :
    format_currency_short 5000 = "$" ++ fmtFixed1Div 5000 1000 ++ "K" :=
  (C5_format_currency_short 5000).2.2.2.2.2.2.2.2.2.2.2.1 (by decide) (by decide)

/-! ## C3: the top-4-plus-Other grouping -/

/-- Concrete input for the C3 counterexample: records that additionally
carry `count` and `total_amount` fields. -/
def c3AuxInput : List DistRec :=
  [⟨some "A", some 10, some 1, some 2⟩, ⟨some "B", some 5, some 1, some 2⟩,
   ⟨some "C", some 3, some 1, some 2⟩, ⟨some "D", some 2, some 1, some 2⟩,
   ⟨some "E", some 1, some 7, some 4⟩]

/-- C3 counterexample: the claim asserts the synthetic "All Others" record
also sums auxiliary numeric fields (count, total_amount) across the
remainder; on an input whose remainder has `count = 7` and
`total_amount = 4`, the code instead emits an "All Others" record carrying
no auxiliary fields at all. -/
theorem C3_counterexample :
    (securityGroupTop4 c3AuxInput).get? 4 =
      some ⟨some "All Others", some 1, none, none⟩ ∧
    (securityGroupTop4 c3AuxInput).get? 4 ≠
      some ⟨some "All Others", some 1, some 7, some 4⟩ := by
  decide

/-- C3 (amended): the grouping sorts records descending by value (stable),
keeps the first four, and when the remainder is non-empty appends one
synthetic record named "All Others" whose `value` is the sum of the
remainder's values and which carries no auxiliary fields; on the 5-record
example it returns 5 records, the 5th named "All Others" with value 1; on
empty input it returns empty output with no synthetic record. -/
theorem C3_top4_plus_other (l : List DistRec) :
    securityGroupTop4 [] = [] ∧
    securityGroupTop4
      [DistRec.nv "A" 10, DistRec.nv "B" 5, DistRec.nv "C" 3,
       DistRec.nv "D" 2, DistRec.nv "E" 1] =
      [DistRec.nv "A" 10, DistRec.nv "B" 5, DistRec.nv "C" 3,
       DistRec.nv "D" 2, DistRec.nv "All Others" 1] ∧
    List.Sorted (fun a b => b.value.getD 0 ≤ a.value.getD 0)
      (sortByDesc (fun x => x.value.getD 0) l) ∧
    (sortByDesc (fun x => x.value.getD 0) l).Perm l ∧
    (l.length ≤ 4 →
      securityGroupTop4 l = sortByDesc (fun x => x.value.getD 0) l) ∧
    (4 < l.length →
      securityGroupTop4 l =
        (sortByDesc (fun x => x.value.getD 0) l).take 4 ++
          [⟨some "All Others",
            some (((sortByDesc (fun x => x.value.getD 0) l).drop 4).foldl
              (fun a x => a + x.value.getD 0) 0), none, none⟩]) := by
  have hlen : (sortByDesc (fun x : DistRec => x.value.getD 0) l).length = l.length :=
    (sortByDesc_perm _ l).length_eq
  refine ⟨by decide, by decide, sortByDesc_sorted _ l, sortByDesc_perm _ l, ?_, ?_⟩
  · intro h
    unfold securityGroupTop4
    rw [if_neg (by omega), List.take_of_length_le (by omega)]
  · intro h
    unfold securityGroupTop4
    rw [if_pos (by omega)]

/-- Witness for C3 (amended): both size branches applied at concrete
inputs. -/
theorem C3_top4_plus_other_witness :
    securityGroupTop4 [DistRec.nv "A" 10] =
      sortByDesc (fun x => x.value.getD 0) [DistRec.nv "A" 10] :=
  (C3_top4_plus_other [DistRec.nv "A" 10]).2.2.2.2.1 (by decide)

/-! ## C4 / C10: deduplication by company, keep the maximum amount -/

theorem assocFindRec_eq_none {β : Type} (m : List (String × β)) (k : String) :
    assocFindRec m k = none ↔ k ∉ m.map Prod.fst := by
  induction m with
  | nil => simp [assocFindRec]
  | cons kv rest ih =>
    obtain ⟨k', v'⟩ := kv
    simp only [assocFindRec, List.map_cons, List.mem_cons]
    by_cases h : k' = k
    · simp [h]
    · simp only [if_neg h, ih]
      constructor
      · intro hn
        push_neg
        exact ⟨fun hk => h hk.symm, hn⟩
      · intro hn
        push_neg at hn
        exact hn.2

theorem assocFindRec_mem {β : Type} {m : List (String × β)} {k : String}
    {v : β} (h : assocFindRec m k = some v) : (k, v) ∈ m := by
  induction m with
  | nil => simp [assocFindRec] at h
  | cons kv rest ih =>
    obtain ⟨k', v'⟩ := kv
    by_cases hk : k' = k
    · subst hk
      simp [assocFindRec] at h
      subst h
      exact List.mem_cons_self _ _
    · simp [assocFindRec, hk] at h
      exact List.mem_cons_of_mem _ (ih h)

theorem assocSetRec_keys {β : Type} (m : List (String × β)) (k : String)
    (v : β) (h : k ∈ m.map Prod.fst) :
    (assocSetRec m k v).map Prod.fst = m.map Prod.fst := by
  induction m with
  | nil => simp at h
  | cons kv rest ih =>
    obtain ⟨k', v'⟩ := kv
    by_cases hk : k' = k
    · simp [assocSetRec, hk]
    · have hmem : k ∈ rest.map Prod.fst := by
        simp at h
        rcases h with h | h
        · exact absurd h.symm hk
        · simpa using h
      simp [assocSetRec, hk, ih hmem]

theorem assocSetRec_mem_nodup {β : Type} {m : List (String × β)} {k : String}
    {v : β} {kv : String × β} (hn : (m.map Prod.fst).Nodup)
    (h : kv ∈ assocSetRec m k v) : kv = (k, v) ∨ (kv ∈ m ∧ kv.1 ≠ k) := by
  induction m with
  | nil =>
    simp [assocSetRec] at h
    exact Or.inl h
  | cons p rest ih =>
    obtain ⟨k', v'⟩ := p
    by_cases hk : k' = k
    · subst hk
      simp only [assocSetRec, if_pos rfl] at h
      rcases List.mem_cons.1 h with h | h
      · exact Or.inl h
      · refine Or.inr ⟨List.mem_cons_of_mem _ h, ?_⟩
        intro hkv
        have : kv.1 ∈ rest.map Prod.fst := List.mem_map_of_mem Prod.fst h
        rw [hkv] at this
        exact (List.nodup_cons.1 hn).1 this
    · simp only [assocSetRec, if_neg hk] at h
      rcases List.mem_cons.1 h with h | h
      · exact Or.inr ⟨by simp [h], by simp [h, hk]⟩
      · rcases ih (List.nodup_cons.1 hn).2 h with h | ⟨h1, h2⟩
        · exact Or.inl h
        · exact Or.inr ⟨List.mem_cons_of_mem _ h1, h2⟩

theorem nodup_keys_mem_eq {β : Type} {m : List (String × β)} {k : String}
    {a b : β} (hn : (m.map Prod.fst).Nodup) (ha : (k, a) ∈ m)
    (hb : (k, b) ∈ m) : a = b := by
  induction m with
  | nil => simp at ha
  | cons p rest ih =>
    rcases List.mem_cons.1 ha with ha' | ha' <;>
      rcases List.mem_cons.1 hb with hb' | hb'
    · rw [← ha'] at hb'
      exact (Prod.mk.injEq _ _ _ _ ▸ hb').2.symm
    · exfalso
      have : k ∈ rest.map Prod.fst := List.mem_map_of_mem Prod.fst hb'
      rw [← ha'] at hn
      exact (List.nodup_cons.1 hn).1 this
    · exfalso
      have : k ∈ rest.map Prod.fst := List.mem_map_of_mem Prod.fst ha'
      rw [← hb'] at hn
      exact (List.nodup_cons.1 hn).1 this
    · exact ih (List.nodup_cons.1 hn).2 ha' hb'

/-- Invariant of the dedupe loop: after processing `seen`, the dict has
nodup keys, each stored record repeats its key as `company_name`, each
stored record holds the maximum amount among the processed items with its
key (witnessed by one of them), and every processed key is present. -/
def DedupInv (seen : List FundIn) (m : List (String × FundRec)) : Prop :=
  (m.map Prod.fst).Nodup ∧
  (∀ kv ∈ m, (kv : String × FundRec).2.company_name = kv.1) ∧
  (∀ kv ∈ m, (∃ i ∈ seen, i.key = (kv : String × FundRec).1 ∧ i.amt = kv.2.amount) ∧
    (∀ i ∈ seen, i.key = kv.1 → i.amt ≤ kv.2.amount)) ∧
  (∀ i ∈ seen, i.key ∈ m.map Prod.fst)

theorem dedupInv_step {seen : List FundIn} {m : List (String × FundRec)}
    (h : DedupInv seen m) (x : FundIn) :
    DedupInv (seen ++ [x]) (dedupeStep m x) := by
  obtain ⟨hnodup, hname, hmax, hcov⟩ := h
  cases hfind : assocFindRec m x.key with
  | none =>
    have hknotin : x.key ∉ m.map Prod.fst := (assocFindRec_eq_none _ _).1 hfind
    simp only [dedupeStep, hfind]
    refine ⟨?_, ?_, ?_, ?_⟩
    · rw [List.map_append]
      refine List.Nodup.append hnodup (by simp) ?_
      intro a ha hb
      simp at hb
      subst hb
      exact hknotin ha
    · intro kv hkv
      rcases List.mem_append.1 hkv with hkv | hkv
      · exact hname kv hkv
      · simp at hkv
        simp [hkv]
    · intro kv hkv
      rcases List.mem_append.1 hkv with hkv | hkv
      · obtain ⟨⟨i, hi, hik, hia⟩, hbd⟩ := hmax kv hkv
        refine ⟨⟨i, List.mem_append_left _ hi, hik, hia⟩, ?_⟩
        intro j hj hjk
        rcases List.mem_append.1 hj with hj | hj
        · exact hbd j hj hjk
        · have hjx : j = x := by simpa using hj
          exfalso
          apply hknotin
          rw [hjx] at hjk
          rw [hjk]
          exact List.mem_map_of_mem Prod.fst hkv
      · simp at hkv
        subst hkv
        refine ⟨⟨x, List.mem_append_right _ (by simp), rfl, rfl⟩, ?_⟩
        intro j hj hjk
        rcases List.mem_append.1 hj with hj | hj
        · have hj2 : j.key ∈ List.map Prod.fst m := hcov j hj
          rw [show j.key = x.key from hjk] at hj2
          exact absurd hj2 hknotin
        · have hjx : j = x := by simpa using hj
          rw [hjx]
    · intro i hi
      rw [List.map_append]
      rcases List.mem_append.1 hi with hi | hi
      · exact List.mem_append_left _ (hcov i hi)
      · simp at hi
        subst hi
        simp
  | some prev =>
    have hprevmem : (x.key, prev) ∈ m := assocFindRec_mem hfind
    have hkin : x.key ∈ m.map Prod.fst := List.mem_map_of_mem Prod.fst hprevmem
    by_cases hlt : prev.amount < x.amt
    · simp only [dedupeStep, hfind, if_pos hlt]
      refine ⟨?_, ?_, ?_, ?_⟩
      · rw [assocSetRec_keys _ _ _ hkin]
        exact hnodup
      · intro kv hkv
        rcases assocSetRec_mem_nodup hnodup hkv with rfl | ⟨hm, _⟩
        · rfl
        · exact hname kv hm
      · intro kv hkv
        rcases assocSetRec_mem_nodup hnodup hkv with rfl | ⟨hm, hne⟩
        · refine ⟨⟨x, List.mem_append_right _ (by simp), rfl, rfl⟩, ?_⟩
          intro j hj hjk
          rcases List.mem_append.1 hj with hj | hj
          · exact le_trans ((hmax (x.key, prev) hprevmem).2 j hj hjk)
              (le_of_lt hlt)
          · have hjx : j = x := by simpa using hj
            rw [hjx]
        · obtain ⟨⟨i, hi, hik, hia⟩, hbd⟩ := hmax kv hm
          refine ⟨⟨i, List.mem_append_left _ hi, hik, hia⟩, ?_⟩
          intro j hj hjk
          rcases List.mem_append.1 hj with hj | hj
          · exact hbd j hj hjk
          · have hjx : j = x := by simpa using hj
            rw [hjx] at hjk
            exact absurd hjk.symm (by simpa using hne)
      · intro i hi
        rw [assocSetRec_keys _ _ _ hkin]
        rcases List.mem_append.1 hi with hi | hi
        · exact hcov i hi
        · simp at hi
          subst hi
          exact hkin
    · simp only [dedupeStep, hfind, if_neg hlt]
      refine ⟨hnodup, hname, ?_, ?_⟩
      · intro kv hkv
        obtain ⟨⟨i, hi, hik, hia⟩, hbd⟩ := hmax kv hkv
        refine ⟨⟨i, List.mem_append_left _ hi, hik, hia⟩, ?_⟩
        intro j hj hjk
        rcases List.mem_append.1 hj with hj | hj
        · exact hbd j hj hjk
        · have hjx : j = x := by simpa using hj
          have hk1 : kv.1 = x.key := by rw [← hjk, hjx]
          have hkveta : kv = (x.key, kv.2) := by rw [← hk1]
          have hveq : kv.2 = prev :=
            nodup_keys_mem_eq hnodup (hkveta ▸ hkv) hprevmem
          rw [hjx, hveq]
          exact le_of_not_lt hlt
      · intro i hi
        rcases List.mem_append.1 hi with hi | hi
        · exact hcov i hi
        · simp at hi
          subst hi
          exact hkin

theorem dedupInv_foldl (l : List FundIn) : ∀ (seen : List FundIn)
    (m : List (String × FundRec)), DedupInv seen m →
    DedupInv (seen ++ l) (l.foldl dedupeStep m) := by
  induction l with
  | nil => intro seen m h; simpa using h
  | cons x xs ih =>
    intro seen m h
    have := ih (seen ++ [x]) (dedupeStep m x) (dedupInv_step h x)
    simpa [List.append_assoc] using this

theorem dedupInv_company_aggregated (l : List FundIn) :
    DedupInv l (company_aggregated l) := by
  have h0 : DedupInv [] [] := ⟨by simp, by simp, by simp, by simp⟩
  simpa [company_aggregated] using dedupInv_foldl l [] [] h0

theorem dedupedFundraisers_names_eq (l : List FundIn) :
    (dedupedFundraisers l).map (fun r => r.company_name) =
      (company_aggregated l).map Prod.fst := by
  unfold dedupedFundraisers
  rw [List.map_map]
  exact List.map_congr_left (fun kv hkv =>
    (dedupInv_company_aggregated l).2.1 kv hkv)

theorem dedupedFundraisers_names_nodup (l : List FundIn) :
    ((dedupedFundraisers l).map (fun r => r.company_name)).Nodup := by
  rw [dedupedFundraisers_names_eq]
  exact (dedupInv_company_aggregated l).1

theorem dedupedFundraisers_max (l : List FundIn) :
    ∀ r ∈ dedupedFundraisers l,
      (∃ i ∈ l, i.key = r.company_name ∧ i.amt = r.amount) ∧
      (∀ i ∈ l, i.key = r.company_name → i.amt ≤ r.amount) := by
  intro r hr
  obtain ⟨kv, hkv, hsnd⟩ := List.mem_map.1 hr
  obtain ⟨hnodup, hname, hmax, _⟩ := dedupInv_company_aggregated l
  have h1 := hname kv hkv
  obtain ⟨⟨i, hi, hik, hia⟩, hbd⟩ := hmax kv hkv
  subst hsnd
  constructor
  · exact ⟨i, hi, by rw [hik, h1], hia⟩
  · intro j hj hjk
    exact hbd j hj (by rw [hjk, h1])

theorem dedupedFundraisers_cover (l : List FundIn) :
    ∀ i ∈ l, ∃ r ∈ dedupedFundraisers l, r.company_name = i.key := by
  intro i hi
  obtain ⟨hnodup, hname, _, hcov⟩ := dedupInv_company_aggregated l
  obtain ⟨kv, hkv, hfst⟩ := List.mem_map.1 (hcov i hi)
  exact ⟨kv.2, List.mem_map_of_mem (fun p => p.2) hkv, by rw [hname kv hkv, hfst]⟩

/-- Concrete input of the C4 example. -/
def c4Input : List FundIn :=
  [⟨some "X", some 5, none, none⟩, ⟨some "X", some 9, none, none⟩,
   ⟨some "Y", some 3, none, none⟩]

/-- C4: deduplication-by-company keeps, for each distinct company_name,
exactly one record holding the maximum amount seen for that company: on
the X/X/Y example the result is exactly [{X, 9}, {Y, 3}], and in general
the result has at most one record per company_name, every company of the
input appears, and each kept record's amount is the maximum amount among
the input records with that company (attained by one of them). -/
theorem C4_dedupe_keep_max (l : List FundIn) :
    dedupedFundraisers c4Input =
      [⟨"X", 9, "Unknown"⟩, ⟨"Y", 3, "Unknown"⟩] ∧
    ((dedupedFundraisers l).map (fun r => r.company_name)).Nodup ∧
    (∀ r ∈ dedupedFundraisers l,
      (∃ i ∈ l, i.key = r.company_name ∧ i.amt = r.amount) ∧
      (∀ i ∈ l, i.key = r.company_name → i.amt ≤ r.amount)) ∧
    (∀ i ∈ l, ∃ r ∈ dedupedFundraisers l, r.company_name = i.key) :=
  ⟨by decide, dedupedFundraisers_names_nodup l, dedupedFundraisers_max l,
    dedupedFundraisers_cover l⟩

/-- Witness for C4: the membership clauses applied at the concrete
example. -/
theorem C4_dedupe_keep_max_witness :
    FundIn.amt ⟨some "X", some 5, none, none⟩ ≤
      FundRec.amount ⟨"X", 9, "Unknown"⟩ :=
  ((C4_dedupe_keep_max c4Input).2.2.1 ⟨"X", 9, "Unknown"⟩ (by decide)).2
    ⟨some "X", some 5, none, none⟩ (by decide) (by decide)

/-- Concrete input of the C10 truncation-before-dedup demonstration: twenty
filings of company X with amounts 1..20 followed by a larger filing of the
same company at position 21. -/
def c10Input : List FundIn :=
  ((List.range 20).map (fun i =>
    ⟨some "X", some ((i : Int) + 1), some "Equity", none⟩)) ++
    [⟨some "X", some 100, some "Equity", none⟩]

/-- C10: the raw fundraiser list has at most 20 records, at most one per
company_name, sorted descending by amount; the output depends only on the
first 20 entries of the backend list (dedupe happens after truncation), and
on the concrete 21-entry input the larger position-21 filing of company X
is ignored and the result has fewer than 20 records. -/
theorem C10_top_fundraisers_raw (data : Option (List FundIn))
    (l1 l2 : List FundIn) :
    (top_fundraisers_raw data).length ≤ 20 ∧
    ((top_fundraisers_raw data).map (fun r => r.company_name)).Nodup ∧
    List.Sorted (fun a b => b.amount ≤ a.amount) (top_fundraisers_raw data) ∧
    (l1.take 20 = l2.take 20 →
      top_fundraisers_raw (some l1) = top_fundraisers_raw (some l2)) ∧
    top_fundraisers_raw (some c10Input) = [⟨"X", 20, "Equity"⟩] := by
  refine ⟨?_, ?_, ?_, ?_, by decide⟩
  · have := List.length_take 20
      (sortByDesc (fun x : FundRec => x.amount) (dedupedFundraisers (fundSource data)))
    simp only [top_fundraisers_raw, aggregateFundraisers]
    omega
  · have h0 := dedupedFundraisers_names_nodup (fundSource data)
    have hperm : List.Perm
        ((sortByDesc (fun x : FundRec => x.amount)
          (dedupedFundraisers (fundSource data))).map
            (fun r : FundRec => r.company_name))
        ((dedupedFundraisers (fundSource data)).map
          (fun r : FundRec => r.company_name)) :=
      (sortByDesc_perm _ _).map _
    have h1 := (hperm.nodup_iff).2 h0
    have hsub : List.Sublist
        ((top_fundraisers_raw data).map (fun r : FundRec => r.company_name))
        ((sortByDesc (fun x : FundRec => x.amount)
          (dedupedFundraisers (fundSource data))).map
            (fun r : FundRec => r.company_name)) :=
      (List.take_sublist _ _).map _
    exact h1.sublist hsub
  · exact List.Pairwise.sublist (List.take_sublist _ _) (sortByDesc_sorted _ _)
  · intro h
    have h20 : (20 : Nat) ≠ 0 := by decide
    by_cases h1 : l1 = []
    · subst h1
      have : l2 = [] := by
        have := h.symm
        simpa [List.take_eq_nil_iff] using this
      subst this
      rfl
    · have h2 : l2 ≠ [] := by
        intro h2
        subst h2
        simp [List.take_eq_nil_iff] at h
        exact h1 h
      simp only [top_fundraisers_raw, fundSource, if_neg h1, if_neg h2, h]

/-- Witness for C10: the truncation-dependence clause applied at the
concrete 21-entry input and its own 20-entry truncation. -/
theorem C10_top_fundraisers_raw_witness :
    top_fundraisers_raw (some c10Input) =
      top_fundraisers_raw (some (c10Input.take 20)) :=
  (C10_top_fundraisers_raw none c10Input (c10Input.take 20)).2.2.2.1 (by decide)

/-! ## C1: raw mode -/

/-- Concrete unsorted 5-record distribution for the C1 counterexample. -/
def c1Dist5 : List DistRec :=
  [DistRec.nv "E" 1, DistRec.nv "A" 10, DistRec.nv "B" 5, DistRec.nv "C" 3,
   DistRec.nv "D" 2]

/-- Concrete 2-record fundraiser input for the C1 counterexample. -/
def c1Fund2 : List FundIn :=
  [⟨some "A", some 1, none, none⟩, ⟨some "B", some 2, none, none⟩]

/-- C1 counterexample: with `raw=true`, `get_security_types` returns the
fetched distribution itself, which differs from the top-4-plus-Other
grouped list the chart is built from, and `get_top_fundraisers` returns
the descending aggregated list, which differs from the ascending order fed
to the bar trace. -/
theorem C1_counterexample :
    get_security_types_body none "count" "dark" true (some ⟨c1Dist5, []⟩) =
      .ok (Json.arr (c1Dist5.map distRecToJson)) ∧
    securityGroupTop4 c1Dist5 ≠ c1Dist5 ∧
    get_top_fundraisers_body none none "offering_amount" "dark" true
      (some c1Fund2) =
      .ok (Json.arr ((top_fundraisers_raw (some c1Fund2)).map fundRecToJson)) ∧
    top_fundraisers_raw (some c1Fund2) =
      [⟨"B", 2, "Unknown"⟩, ⟨"A", 1, "Unknown"⟩] ∧
    fundraisersDisplay (top_fundraisers_raw (some c1Fund2)) ≠
      top_fundraisers_raw (some c1Fund2) :=
  ⟨rfl, by decide, rfl, by decide, by decide⟩

/-- C1 (amended): with `raw=true` each chart endpoint returns, without
invoking chart construction, the endpoint's normalized record list — for
`get_security_types` the distribution BEFORE the top-4-plus-Other grouping
(the grouping happens only on the chart path), and for
`get_top_fundraisers` the deduplicated top-20 list in descending amount
order, which the chart path re-sorts ascending before building the bar
trace; the remaining chart endpoints likewise return their aggregated
record lists. -/
theorem C1_raw_mode (year industry : Option String)
    (metric industryS theme cm : String) (t : Nat)
    (sec : Option SecDistResponse) (fund : Option (List FundIn))
    (ind loc locfb : Option DistResponse) (mon yr : Option ChartsResponse)
    (q : List String × List Int × List Int × List Int) (yd : List YearRec) :
    get_security_types_body year metric theme true sec =
      .ok (Json.arr ((securitySource sec).map distRecToJson)) ∧
    get_top_fundraisers_body year industry metric theme true fund =
      .ok (Json.arr ((top_fundraisers_raw fund).map fundRecToJson)) ∧
    get_top_industries_body year metric theme true ind =
      .ok (Json.arr ((industriesSource ind).map distRecToJson)) ∧
    get_location_distribution_body year metric theme true t loc locfb =
      .ok (Json.arr ((locationSource loc locfb).map distRecToJson)) ∧
    (monthlyData metric industryS cm mon = .ok q →
      get_monthly_activity_body metric industryS theme true cm mon =
        .ok (monthlyRawJson q.1 q.2.1 q.2.2.1 q.2.2.2)) ∧
    (yearlyData metric industryS yr = .ok yd →
      get_yearly_statistics_body metric industryS theme true yr =
        .ok (Json.arr (yd.map (fun r =>
          Json.obj [("year", Json.str r.year), ("value", Json.num r.value)])))) := by
  refine ⟨rfl, rfl, rfl, rfl, ?_, ?_⟩
  · intro h
    obtain ⟨ms, e, db, f⟩ := q
    simp only [get_monthly_activity_body, h, bind, Except.bind]
    rfl
  · intro h
    simp only [get_yearly_statistics_body, h, bind, Except.bind]
    rfl

/-- Witness for C1 (amended): the monthly and yearly clauses applied at an
empty backend time series. -/
theorem C1_raw_mode_witness :
    get_monthly_activity_body "count" "all" "dark" true "x" (some ⟨[], []⟩) =
      .ok (monthlyRawJson [] [] [] []) ∧
    get_yearly_statistics_body "count" "all" "dark" true (some ⟨[], []⟩) =
      .ok (Json.arr ([] : List Json)) :=
  ⟨(C1_raw_mode none none "count" "all" "dark" "x" 0 none none none none
      none (some ⟨[], []⟩) (some ⟨[], []⟩) ([], [], [], []) []).2.2.2.2.1 rfl,
   (C1_raw_mode none none "count" "all" "dark" "x" 0 none none none none
      none (some ⟨[], []⟩) (some ⟨[], []⟩) ([], [], [], []) []).2.2.2.2.2 rfl⟩

/-! ## C7: the fixed toolbar config -/

theorem attachConfig_getField (d : List Json) (L : Json) :
    jsonGetField (attachConfig (figToJson d L)) "config" =
      some get_toolbar_config := rfl

/-- C7 counterexample: the chart response produced by the
exception-fallback path of `get_security_types` carries NO `config` field
(and it is a chart response: it has `data` and `layout`); the path is
reachable, e.g. when a fetched distribution record lacks its `name` key. -/
theorem C7_counterexample :
    jsonGetField security_types_exception_json "config" = none ∧
    (jsonGetField security_types_exception_json "data").isSome = true ∧
    (jsonGetField security_types_exception_json "layout").isSome = true ∧
    get_security_types_ep none "count" "dark" false
      (some ⟨[⟨none, some 5, none, none⟩], []⟩) =
      security_types_exception_json :=
  ⟨rfl, rfl, rfl, rfl⟩

/-- C7 (amended): every chart response built on the successful
(non-exception) path of the six chart endpoints carries the fixed toolbar
config verbatim as its `config` field; the exception-fallback chart of
`get_security_types` is the one chart response without it (the other
endpoints' exception paths return `{"error": ...}` objects, not charts). -/
theorem C7_toolbar_config (year industry : Option String)
    (metric industryS theme cm : String) (t : Nat)
    (sec : Option SecDistResponse) (fund : Option (List FundIn))
    (ind loc locfb : Option DistResponse) (mon yr : Option ChartsResponse)
    (j1 j2 j3 j4 j5 j6 : Json) :
    (get_security_types_body year metric theme false sec = .ok j1 →
      jsonGetField j1 "config" = some get_toolbar_config) ∧
    (get_top_industries_body year metric theme false ind = .ok j2 →
      jsonGetField j2 "config" = some get_toolbar_config) ∧
    (get_monthly_activity_body metric industryS theme false cm mon = .ok j3 →
      jsonGetField j3 "config" = some get_toolbar_config) ∧
    (get_top_fundraisers_body year industry metric theme false fund = .ok j4 →
      jsonGetField j4 "config" = some get_toolbar_config) ∧
    (get_location_distribution_body year metric theme false t loc locfb = .ok j5 →
      jsonGetField j5 "config" = some get_toolbar_config) ∧
    (get_yearly_statistics_body metric industryS theme false yr = .ok j6 →
      jsonGetField j6 "config" = some get_toolbar_config) ∧
    jsonGetField security_types_exception_json "config" = none := by
  refine ⟨?_, ?_, ?_, ?_, ?_, ?_, rfl⟩
  · intro h
    simp only [get_security_types_body, bind, Except.bind, pure,
      Except.pure] at h
    repeat' split at h
    all_goals try (injection h with h; subst h; exact attachConfig_getField _ _)
    all_goals simp_all
  · intro h
    simp only [get_top_industries_body, bind, Except.bind, pure,
      Except.pure] at h
    repeat' split at h
    all_goals try (injection h with h; subst h; exact attachConfig_getField _ _)
    all_goals simp_all
  · intro h
    simp only [get_monthly_activity_body, monthlyRender, bind, Except.bind,
      pure, Except.pure] at h
    repeat' split at h
    all_goals try (injection h with h; subst h; exact attachConfig_getField _ _)
    all_goals simp_all
  · intro h
    simp only [get_top_fundraisers_body, bind, Except.bind, pure,
      Except.pure] at h
    repeat' split at h
    all_goals try (injection h with h; subst h; exact attachConfig_getField _ _)
    all_goals simp_all
  · intro h
    simp only [get_location_distribution_body, bind, Except.bind, pure,
      Except.pure] at h
    repeat' split at h
    all_goals try (injection h with h; subst h; exact attachConfig_getField _ _)
    all_goals simp_all
  · intro h
    simp only [get_yearly_statistics_body, bind, Except.bind, pure,
      Except.pure] at h
    repeat' split at h
    all_goals try (injection h with h; subst h; exact attachConfig_getField _ _)
    all_goals simp_all

/-- Witness for C7 (amended): the security-types clause applied at the
fallback data (fetch returned null, raw false). -/
theorem C7_toolbar_config_witness :
    jsonGetField (get_security_types_ep none "count" "dark" false none)
      "config" = some get_toolbar_config := by
  have h : get_security_types_body none "count" "dark" false none =
      .ok (get_security_types_ep none "count" "dark" false none) := rfl
  exact (C7_toolbar_config none none "count" "all" "dark" "x" 0 none none
    none none none none none _ Json.null Json.null Json.null Json.null
    Json.null).1 h

/-! ## C2: endpoint behavior when the fetch returns null -/

/-- Whether an embedded computation completed without raising. -/
def exceptIsOk {α : Type} : Except String α → Bool
  | .ok _ => true
  | .error _ => false

theorem exists_ok_of_exceptIsOk {α : Type} {e : Except String α}
    (h : exceptIsOk e = true) : ∃ a, e = .ok a := by
  cases e with
  | ok a => exact ⟨a, rfl⟩
  | error err => simp [exceptIsOk] at h

theorem pyMaxInt_ok (l : List Int) (h : l ≠ []) : ∃ v, pyMaxInt l = .ok v := by
  cases l with
  | nil => exact absurd rfl h
  | cons x xs => exact ⟨_, rfl⟩

theorem fallbackMonths_filter_ne (cm : String) :
    fallbackMonths.filter (fun m => m ≠ cm) ≠ [] := by
  intro hcontra
  by_cases h : cm = "2009-01"
  · have hm : "2009-02" ∈ fallbackMonths.filter (fun m => m ≠ cm) := by
      subst h
      decide
    rw [hcontra] at hm
    simp at hm
  · have hm : "2009-01" ∈ fallbackMonths.filter (fun m => m ≠ cm) := by
      refine List.mem_filter.2 ⟨by decide, ?_⟩
      simpa using fun hx => h hx.symm
    rw [hcontra] at hm
    simp at hm

theorem range_map_ne_nil {α : Type} (fn : Nat → α) (n : Nat) (h : n ≠ 0) :
    (List.range n).map fn ≠ [] := by
  intro hc
  apply h
  have hlen := congrArg List.length hc
  simpa using hlen

theorem monthlyRender_ok (metric industry theme : String) (raw : Bool)
    (months : List String) (e d f : List Int)
    (he : e ≠ []) (hd : d ≠ []) (hf : f ≠ []) :
    ∃ j, monthlyRender metric industry theme raw months e d f = .ok j := by
  cases raw with
  | true => exact ⟨_, rfl⟩
  | false =>
    obtain ⟨v1, hv1⟩ := pyMaxInt_ok e he
    obtain ⟨v2, hv2⟩ := pyMaxInt_ok d hd
    obtain ⟨v3, hv3⟩ := pyMaxInt_ok f hf
    apply exists_ok_of_exceptIsOk
    simp only [monthlyRender, hv1, hv2, hv3, bind, Except.bind]
    rfl

theorem monthly_body_none_ok (metric industryS theme cm : String)
    (raw : Bool) :
    ∃ j, get_monthly_activity_body metric industryS theme raw cm none = .ok j := by
  have hmonths := fallbackMonths_filter_ne cm
  have hlen : (fallbackMonths.filter (fun m => m ≠ cm)).length ≠ 0 := by
    simpa [List.length_eq_zero] using hmonths
  cases hm : isAmountMetric metric with
  | true =>
    have hdata : monthlyData metric industryS cm none =
        .ok (fallbackMonths.filter (fun m => m ≠ cm),
          (List.range (fallbackMonths.filter (fun m => m ≠ cm)).length).map
            (fun i => 500000000 + Int.ofNat i * 10000000),
          (List.range (fallbackMonths.filter (fun m => m ≠ cm)).length).map
            (fun i => 200000000 + Int.ofNat i * 5000000),
          (List.range (fallbackMonths.filter (fun m => m ≠ cm)).length).map
            (fun i => 150000000 + Int.ofNat i * 3000000)) := by
      simp only [monthlyData, hm]
      rfl
    obtain ⟨j, hj⟩ := monthlyRender_ok metric industryS theme raw
      (fallbackMonths.filter (fun m => m ≠ cm)) _ _ _
      (range_map_ne_nil _ _ hlen) (range_map_ne_nil _ _ hlen)
      (range_map_ne_nil _ _ hlen)
    refine ⟨j, ?_⟩
    simp only [get_monthly_activity_body, hdata, bind, Except.bind]
    exact hj
  | false =>
    have hdata : monthlyData metric industryS cm none =
        .ok (fallbackMonths.filter (fun m => m ≠ cm),
          (List.range (fallbackMonths.filter (fun m => m ≠ cm)).length).map
            (fun i => 120 + Int.ofNat i),
          (List.range (fallbackMonths.filter (fun m => m ≠ cm)).length).map
            (fun i => 45 + (Int.ofNat i).fdiv 2),
          (List.range (fallbackMonths.filter (fun m => m ≠ cm)).length).map
            (fun i => 25 + (Int.ofNat i).fdiv 3)) := by
      simp only [monthlyData, hm]
      rfl
    obtain ⟨j, hj⟩ := monthlyRender_ok metric industryS theme raw
      (fallbackMonths.filter (fun m => m ≠ cm)) _ _ _
      (range_map_ne_nil _ _ hlen) (range_map_ne_nil _ _ hlen)
      (range_map_ne_nil _ _ hlen)
    refine ⟨j, ?_⟩
    simp only [get_monthly_activity_body, hdata, bind, Except.bind]
    exact hj

/-- C2: when the backend fetch returns null, every public endpoint
completes its `try` body without raising (so the caller receives JSON, not
an exception) and returns its fixed fallback payload; in particular
`get_latest_filings` returns the hardcoded fallback table and
`get_security_types` in raw mode returns the hardcoded fallback
distribution. -/
theorem C2_fetch_null (year industry : Option String)
    (metric industryS theme cm : String) (raw : Bool) (t : Nat) :
    get_latest_filings_body none = .ok latestFallback ∧
    get_security_types_body year metric theme true none =
      .ok (Json.arr (securityFallbackDist.map distRecToJson)) ∧
    (∃ j, get_form_d_intro_body none = .ok j) ∧
    (∃ j, get_security_types_body year metric theme raw none = .ok j) ∧
    (∃ j, get_top_industries_body year metric theme raw none = .ok j) ∧
    (∃ j, get_monthly_activity_body metric industryS theme raw cm none = .ok j) ∧
    (∃ j, get_top_fundraisers_body year industry metric theme raw none = .ok j) ∧
    (∃ j, get_location_distribution_body year metric theme raw t none none = .ok j) ∧
    (∃ j, get_yearly_statistics_body metric industryS theme raw none = .ok j) ∧
    (∃ j, get_available_years_body none = .ok j) := by
  refine ⟨rfl, rfl, ⟨_, rfl⟩, ?_, ?_,
    monthly_body_none_ok metric industryS theme cm raw, ?_, ?_, ?_, ⟨_, rfl⟩⟩
  · cases raw with
    | true => exact ⟨_, rfl⟩
    | false => exact ⟨_, rfl⟩
  · cases raw with
    | true => exact ⟨_, rfl⟩
    | false =>
      cases hm : isAmountMetric metric with
      | true =>
        apply exists_ok_of_exceptIsOk
        simp only [get_top_industries_body, hm]
        rfl
      | false =>
        apply exists_ok_of_exceptIsOk
        simp only [get_top_industries_body, hm]
        rfl
  · cases raw with
    | true => exact ⟨_, rfl⟩
    | false => exact ⟨_, rfl⟩
  · cases raw with
    | true => exact ⟨_, rfl⟩
    | false =>
      cases hm : isAmountMetric metric with
      | true =>
        apply exists_ok_of_exceptIsOk
        simp only [get_location_distribution_body, hm]
        rfl
      | false =>
        apply exists_ok_of_exceptIsOk
        simp only [get_location_distribution_body, hm]
        rfl
  · cases raw with
    | true => exact ⟨_, rfl⟩
    | false => exact ⟨_, rfl⟩

/-! ## C6: the time-series month filter -/

/-- The keep-condition of the monthly filter: the first four characters of
the date parse as a year at least 2009, and the month differs from the
current in-progress month. -/
def keepMonth (current_month m : String) : Bool :=
  match digitsToNat? (m.take 4).data with
  | some y => 2009 ≤ y && m ≠ current_month
  | none => false

/-- The relative positions the index filter keeps, computed structurally. -/
def relIdx (current_month : String) : List String → List Nat
  | [] => []
  | m :: rest =>
    if keepMonth current_month m then
      0 :: (relIdx current_month rest).map (fun i => i + 1)
    else (relIdx current_month rest).map (fun i => i + 1)

theorem filteredIndicesAux_eq (cm : String) (months : List String)
    (hp : ∀ m ∈ months, (digitsToNat? (m.take 4).data).isSome) :
    ∀ i, filteredIndicesAux cm months i =
      .ok ((relIdx cm months).map (fun r => r + i)) := by
  induction months with
  | nil => intro i; rfl
  | cons m rest ih =>
    intro i
    obtain ⟨y, hy⟩ := Option.isSome_iff_exists.1 (hp m (by simp))
    have hpy : pyInt (m.take 4) = .ok (y : Int) := by
      unfold pyInt
      rw [hy]
    have hrest := ih (fun x hx => hp x (by simp [hx])) (i + 1)
    by_cases hc : (2009 : Int) ≤ (y : Int) ∧ m ≠ cm
    · have hk : keepMonth cm m = true := by
        simp only [keepMonth, hy, Bool.and_eq_true, decide_eq_true_eq]
        exact ⟨by exact_mod_cast hc.1, hc.2⟩
      simp only [filteredIndicesAux, hpy, bind, Except.bind, hrest,
        if_pos hc, pure, Except.pure, relIdx, hk, if_true, List.map_cons,
        List.map_map, Nat.zero_add, Except.ok.injEq]
      congr 1
      apply List.map_congr_left
      intro a _
      simp only [Function.comp_apply]
      omega
    · have hk : keepMonth cm m = false := by
        simp only [keepMonth, hy]
        rw [Bool.and_eq_false_iff]
        by_cases h1 : 2009 ≤ y
        · right
          simpa using fun h2 => hc ⟨by exact_mod_cast h1, h2⟩
        · left
          simpa using h1
      simp only [filteredIndicesAux, hpy, bind, Except.bind, hrest,
        if_neg hc, pure, Except.pure, relIdx, hk, Bool.false_eq_true,
        if_false, List.map_map, Except.ok.injEq]
      apply List.map_congr_left
      intro a _
      simp only [Function.comp_apply]
      omega

theorem pySelect_map_succ {α : Type} (a : α) (l : List α) (idx : List Nat) :
    pySelect (a :: l) (idx.map (fun i => i + 1)) = pySelect l idx := by
  induction idx with
  | nil => rfl
  | cons i rest ih =>
    simp only [pySelect, List.map_cons, mapExcept] at ih ⊢
    rw [show (a :: l).get? (i + 1) = l.get? i from rfl]
    rw [ih]

theorem pySelect_relIdx {α : Type} (cm : String) (months : List String) :
    ∀ (a : List α), a.length = months.length →
    pySelect a (relIdx cm months) =
      .ok (((a.zip months).filter (fun p => keepMonth cm p.2)).map Prod.fst) := by
  induction months with
  | nil =>
    intro a ha
    rw [List.length_eq_zero.1 ha]
    rfl
  | cons m rest ih =>
    intro a ha
    cases a with
    | nil => simp at ha
    | cons x xs =>
      have hx : xs.length = rest.length := by simpa using ha
      have hshift := pySelect_map_succ x xs (relIdx cm rest)
      by_cases hk : keepMonth cm m = true
      · simp only [relIdx, hk, if_true, List.zip_cons_cons, pySelect,
          mapExcept]
        rw [show (x :: xs).get? 0 = some x from rfl]
        simp only [pySelect] at hshift ih
        rw [hshift, ih xs hx]
        simp [List.filter_cons, hk, bind, Except.bind, pure, Except.pure]
      · have hkf : keepMonth cm m = false := by simpa using hk
        simp only [relIdx, hkf, Bool.false_eq_true, if_false,
          List.zip_cons_cons]
        rw [hshift]
        simp only [List.filter_cons, hkf, Bool.false_eq_true, if_false]
        exact ih xs hx

theorem monthlyApplyFilter_eq (cm : String) (months : List String)
    (e d f : List Int)
    (hp : ∀ m ∈ months, (digitsToNat? (m.take 4).data).isSome)
    (he : e.length = months.length) (hd : d.length = months.length)
    (hf : f.length = months.length) :
    monthlyApplyFilter months e d f cm = .ok
      (months.filter (keepMonth cm),
       ((e.zip months).filter (fun p => keepMonth cm p.2)).map Prod.fst,
       ((d.zip months).filter (fun p => keepMonth cm p.2)).map Prod.fst,
       ((f.zip months).filter (fun p => keepMonth cm p.2)).map Prod.fst) := by
  have hidx : filtered_indices months cm = .ok (relIdx cm months) := by
    have h0 := filteredIndicesAux_eq cm months hp 0
    simpa [filtered_indices] using h0
  have hzipself : ∀ (l : List String),
      ((l.zip l).filter (fun p => keepMonth cm p.2)).map Prod.fst =
        l.filter (keepMonth cm) := by
    intro l
    induction l with
    | nil => rfl
    | cons m rest ihm =>
      by_cases hk : keepMonth cm m = true <;>
        simp [List.zip_cons_cons, List.filter_cons, hk, ihm]
  have hmsel : pySelect months (relIdx cm months) =
      .ok (months.filter (keepMonth cm)) := by
    rw [pySelect_relIdx cm months months rfl, hzipself]
  have hesel := pySelect_relIdx cm months e he
  have hdsel := pySelect_relIdx cm months d hd
  have hfsel := pySelect_relIdx cm months f hf
  simp only [monthlyApplyFilter, hidx, hmsel, hesel, hdsel, hfsel, bind,
    Except.bind, pure, Except.pure]

/-- The series the monthly endpoint reads from a backend response
(src/main.py lines 947-949 / 964-965). -/
def tsSelect (industry : String) (d : ChartsResponse) : List TSPoint :=
  if industryActive industry then d.timeseries else d.time_series

/-- The date of a point, as read by the endpoint. -/
def dateStr (p : TSPoint) : String := p.date.getD ""

/-- The per-point equity value chosen by the metric/industry branches of
`get_monthly_activity` (src/main.py lines 951-978). -/
def monthlyEquityOf (metric industry : String) (p : TSPoint) : Int :=
  if industryActive industry then
    (if isAmountMetric metric then p.total_amount.getD 0 else p.filings.getD 0)
  else if metric = "offering_amount" then p.equity_amount.getD 0
  else if metric = "amount_sold" then p.equity_amount.getD 0
  else p.equity_filings.getD 0

/-- The per-point debt value (zero on the industry view). -/
def monthlyDebtOf (metric industry : String) (p : TSPoint) : Int :=
  if industryActive industry then 0
  else if metric = "offering_amount" then p.debt_amount.getD 0
  else if metric = "amount_sold" then p.debt_amount.getD 0
  else p.debt_filings.getD 0

/-- The per-point fund value (zero on the industry view). -/
def monthlyFundOf (metric industry : String) (p : TSPoint) : Int :=
  if industryActive industry then 0
  else if metric = "offering_amount" then p.fund_amount.getD 0
  else if metric = "amount_sold" then p.fund_amount.getD 0
  else p.fund_filings.getD 0

theorem mapExcept_date_ok (l : List TSPoint)
    (hl : ∀ p ∈ l, p.date.isSome) :
    mapExcept (fun item => pyIndex item.date "date") l = .ok (l.map dateStr) := by
  induction l with
  | nil => rfl
  | cons p rest ih =>
    obtain ⟨s, hs⟩ := Option.isSome_iff_exists.1 (hl p (by simp))
    have hrest := ih (fun q hq => hl q (by simp [hq]))
    have hp1 : pyIndex p.date "date" = .ok s := by simp [pyIndex, hs]
    have hds : dateStr p = s := by simp [dateStr, hs]
    simp [mapExcept, hp1, hrest, bind, Except.bind, pure, Except.pure, hds]

theorem monthlyArrays_eq (metric industry : String) (d : ChartsResponse)
    (hp : ∀ p ∈ tsSelect industry d, p.date.isSome) :
    monthlyArrays metric industry d = .ok
      ((tsSelect industry d).map dateStr,
       (tsSelect industry d).map (monthlyEquityOf metric industry),
       (tsSelect industry d).map (monthlyDebtOf metric industry),
       (tsSelect industry d).map (monthlyFundOf metric industry)) := by
  have hrep : ∀ (l : List TSPoint) (g : TSPoint → Int),
      List.replicate (l.map g).length (0 : Int) = l.map (fun _ => (0 : Int)) := by
    intro l g
    rw [List.length_map, ← List.map_const]
    rfl
  cases hind : industryActive industry with
  | true =>
    have hsel : tsSelect industry d = d.timeseries := by simp [tsSelect, hind]
    have hdates := mapExcept_date_ok d.timeseries (by
      rw [← hsel]; exact hp)
    have hD : d.timeseries.map (fun _ => (0 : Int)) =
        d.timeseries.map (monthlyDebtOf metric industry) :=
      List.map_congr_left (fun p _ => by simp [monthlyDebtOf, hind])
    have hF : d.timeseries.map (fun _ => (0 : Int)) =
        d.timeseries.map (monthlyFundOf metric industry) :=
      List.map_congr_left (fun p _ => by simp [monthlyFundOf, hind])
    cases hm : isAmountMetric metric with
    | true =>
      have hE : d.timeseries.map (fun item => item.total_amount.getD 0) =
          d.timeseries.map (monthlyEquityOf metric industry) :=
        List.map_congr_left (fun p _ => by
          simp [monthlyEquityOf, hind, hm])
      simp only [monthlyArrays, hind, if_true, hm, hdates, bind,
        Except.bind, pure, Except.pure, hrep, hsel]
      exact congrArg Except.ok (congrArg₂ Prod.mk rfl
        (congrArg₂ Prod.mk hE (congrArg₂ Prod.mk hD hF)))
    | false =>
      have hE : d.timeseries.map (fun item => item.filings.getD 0) =
          d.timeseries.map (monthlyEquityOf metric industry) :=
        List.map_congr_left (fun p _ => by
          simp [monthlyEquityOf, hind, hm])
      simp only [monthlyArrays, hind, if_true, hm, Bool.false_eq_true,
        if_false, hdates, bind, Except.bind, pure, Except.pure, hrep, hsel]
      exact congrArg Except.ok (congrArg₂ Prod.mk rfl
        (congrArg₂ Prod.mk hE (congrArg₂ Prod.mk hD hF)))
  | false =>
    have hsel : tsSelect industry d = d.time_series := by
      simp [tsSelect, hind]
    have hdates := mapExcept_date_ok d.time_series (by
      rw [← hsel]; exact hp)
    by_cases h1 : metric = "offering_amount"
    · have hE : d.time_series.map (fun item => item.equity_amount.getD 0) =
          d.time_series.map (monthlyEquityOf metric industry) :=
        List.map_congr_left (fun p _ => by
          simp [monthlyEquityOf, hind, h1])
      have hD : d.time_series.map (fun item => item.debt_amount.getD 0) =
          d.time_series.map (monthlyDebtOf metric industry) :=
        List.map_congr_left (fun p _ => by
          simp [monthlyDebtOf, hind, h1])
      have hF : d.time_series.map (fun item => item.fund_amount.getD 0) =
          d.time_series.map (monthlyFundOf metric industry) :=
        List.map_congr_left (fun p _ => by
          simp [monthlyFundOf, hind, h1])
      simp only [monthlyArrays, hind, Bool.false_eq_true, if_false,
        eq_true h1, if_true, hdates, bind, Except.bind, pure, Except.pure,
        hsel]
      exact congrArg Except.ok (congrArg₂ Prod.mk rfl
        (congrArg₂ Prod.mk hE (congrArg₂ Prod.mk hD hF)))
    · by_cases h2 : metric = "amount_sold"
      · have hE : d.time_series.map (fun item => item.equity_amount.getD 0) =
            d.time_series.map (monthlyEquityOf metric industry) :=
          List.map_congr_left (fun p _ => by
            simp [monthlyEquityOf, hind, h1, h2])
        have hD : d.time_series.map (fun item => item.debt_amount.getD 0) =
            d.time_series.map (monthlyDebtOf metric industry) :=
          List.map_congr_left (fun p _ => by
            simp [monthlyDebtOf, hind, h1, h2])
        have hF : d.time_series.map (fun item => item.fund_amount.getD 0) =
            d.time_series.map (monthlyFundOf metric industry) :=
          List.map_congr_left (fun p _ => by
            simp [monthlyFundOf, hind, h1, h2])
        simp only [monthlyArrays, hind, Bool.false_eq_true, if_false,
          eq_false h1, eq_true h2, if_true, hdates, bind, Except.bind,
          pure, Except.pure, hsel]
        exact congrArg Except.ok (congrArg₂ Prod.mk rfl
          (congrArg₂ Prod.mk hE (congrArg₂ Prod.mk hD hF)))
      · have hE : d.time_series.map (fun item => item.equity_filings.getD 0) =
            d.time_series.map (monthlyEquityOf metric industry) :=
          List.map_congr_left (fun p _ => by
            simp [monthlyEquityOf, hind, h1, h2])
        have hD : d.time_series.map (fun item => item.debt_filings.getD 0) =
            d.time_series.map (monthlyDebtOf metric industry) :=
          List.map_congr_left (fun p _ => by
            simp [monthlyDebtOf, hind, h1, h2])
        have hF : d.time_series.map (fun item => item.fund_filings.getD 0) =
            d.time_series.map (monthlyFundOf metric industry) :=
          List.map_congr_left (fun p _ => by
            simp [monthlyFundOf, hind, h1, h2])
        simp only [monthlyArrays, hind, Bool.false_eq_true, if_false,
          eq_false h1, eq_false h2, hdates, bind, Except.bind, pure,
          Except.pure, hsel]
        exact congrArg Except.ok (congrArg₂ Prod.mk rfl
          (congrArg₂ Prod.mk hE (congrArg₂ Prod.mk hD hF)))

theorem zip_map_filter {β : Type} (ts : List TSPoint) (g : TSPoint → β)
    (pred : String → Bool) :
    (((ts.map g).zip (ts.map dateStr)).filter (fun p => pred p.2)).map
      Prod.fst = (ts.filter (fun p => pred (dateStr p))).map g := by
  induction ts with
  | nil => rfl
  | cons p rest ih =>
    by_cases h : pred (dateStr p) = true <;>
      simp [List.zip_cons_cons, List.filter_cons, h, ih]

theorem map_filter_comm (ts : List TSPoint) (pred : String → Bool) :
    (ts.map dateStr).filter pred =
      (ts.filter (fun p => pred (dateStr p))).map dateStr := by
  induction ts with
  | nil => rfl
  | cons p rest ih =>
    by_cases h : pred (dateStr p) = true <;>
      simp [List.filter_cons, h, ih]

/-- C6: on every backend time-series response whose points carry parseable
"YYYY-MM" dates, the monthly pipeline keeps exactly those points whose year
is at least 2009 and whose date differs from the current in-progress month,
applying the same index filter to the months, equity, debt and fund arrays,
so all four stay aligned (the i-th entries all come from the i-th kept
point) and have equal length. -/
theorem C6_month_filter (metric industry cm : String) (d : ChartsResponse)
    (hp : ∀ p ∈ tsSelect industry d, p.date.isSome ∧
      (digitsToNat? ((dateStr p).take 4).data).isSome) :
    monthlyData metric industry cm (some d) = .ok
      (((tsSelect industry d).filter (fun p => keepMonth cm (dateStr p))).map dateStr,
       ((tsSelect industry d).filter (fun p => keepMonth cm (dateStr p))).map
         (monthlyEquityOf metric industry),
       ((tsSelect industry d).filter (fun p => keepMonth cm (dateStr p))).map
         (monthlyDebtOf metric industry),
       ((tsSelect industry d).filter (fun p => keepMonth cm (dateStr p))).map
         (monthlyFundOf metric industry)) ∧
    (((tsSelect industry d).filter (fun p => keepMonth cm (dateStr p))).map
      dateStr).length =
      ((tsSelect industry d).filter (fun p => keepMonth cm (dateStr p))).length ∧
    (((tsSelect industry d).filter (fun p => keepMonth cm (dateStr p))).map
      (monthlyEquityOf metric industry)).length =
      ((tsSelect industry d).filter (fun p => keepMonth cm (dateStr p))).length ∧
    (((tsSelect industry d).filter (fun p => keepMonth cm (dateStr p))).map
      (monthlyDebtOf metric industry)).length =
      ((tsSelect industry d).filter (fun p => keepMonth cm (dateStr p))).length ∧
    (((tsSelect industry d).filter (fun p => keepMonth cm (dateStr p))).map
      (monthlyFundOf metric industry)).length =
      ((tsSelect industry d).filter (fun p => keepMonth cm (dateStr p))).length := by
  refine ⟨?_, List.length_map _ _, List.length_map _ _, List.length_map _ _,
    List.length_map _ _⟩
  have harr := monthlyArrays_eq metric industry d (fun p hq => (hp p hq).1)
  have hpm : ∀ m ∈ (tsSelect industry d).map dateStr,
      (digitsToNat? (m.take 4).data).isSome := by
    intro m hm
    obtain ⟨p, hpmem, hpd⟩ := List.mem_map.1 hm
    subst hpd
    exact (hp p hpmem).2
  have happ := monthlyApplyFilter_eq cm ((tsSelect industry d).map dateStr)
    ((tsSelect industry d).map (monthlyEquityOf metric industry))
    ((tsSelect industry d).map (monthlyDebtOf metric industry))
    ((tsSelect industry d).map (monthlyFundOf metric industry))
    hpm (by simp) (by simp) (by simp)
  simp only [monthlyData, harr, bind, Except.bind, happ, zip_map_filter,
    map_filter_comm]

/-- Witness for C6: the filter applied to a concrete two-point series, one
point dated before 2009 and one equal to the current month. -/
theorem C6_month_filter_witness :
    monthlyData "count" "all" "2025-12" (some ⟨[TSPoint.counts "2008-05" 1 2 3,
      TSPoint.counts "2025-11" 4 5 6, TSPoint.counts "2025-12" 7 8 9], []⟩) =
      .ok (["2025-11"], [4], [5], [6]) := by
  have h := (C6_month_filter "count" "all" "2025-12"
    ⟨[TSPoint.counts "2008-05" 1 2 3, TSPoint.counts "2025-11" 4 5 6,
      TSPoint.counts "2025-12" 7 8 9], []⟩ (by decide)).1
  rw [h]
  rfl

/-! ## C8: idempotence and time dependence -/

/-- The month labels a monthly request can compare against the current
month: the fallback literals when the fetch failed, the fetched dates
otherwise. -/
def monthPool (industry : String) (d : Option ChartsResponse) : List String :=
  match d with
  | none => fallbackMonths
  | some r => (tsSelect industry r).map dateStr

theorem filter_ne_eq_of_not_mem (l : List String) (c1 c2 : String)
    (h1 : c1 ∉ l) (h2 : c2 ∉ l) :
    l.filter (fun m => m ≠ c1) = l.filter (fun m => m ≠ c2) := by
  rw [List.filter_eq_self.2, List.filter_eq_self.2] <;>
    intro a ha <;> simp_all <;> rintro rfl <;> simp_all

theorem filteredIndicesAux_congr (c1 c2 : String) (months : List String)
    (h : ∀ m ∈ months, m ≠ c1 ∧ m ≠ c2) :
    ∀ i, filteredIndicesAux c1 months i = filteredIndicesAux c2 months i := by
  induction months with
  | nil => intro i; rfl
  | cons m rest ih =>
    intro i
    have hm := h m (by simp)
    have hrest := ih (fun x hx => h x (by simp [hx]))
    simp only [filteredIndicesAux, hrest]
    cases hy : pyInt (m.take 4) with
    | error e => simp [bind, Except.bind, hy]
    | ok y =>
      simp only [bind, Except.bind, hy]
      cases htail : filteredIndicesAux c2 rest (i + 1) with
      | error e => rfl
      | ok tail =>
        show (if (2009 : Int) ≤ y ∧ m ≠ c1 then pure (i :: tail)
            else pure tail : Except String (List Nat)) =
          (if (2009 : Int) ≤ y ∧ m ≠ c2 then pure (i :: tail) else pure tail)
        by_cases hc : (2009 : Int) ≤ y
        · rw [if_pos ⟨hc, hm.1⟩, if_pos ⟨hc, hm.2⟩]
        · rw [if_neg (fun hx => hc hx.1), if_neg (fun hx => hc hx.1)]

theorem monthlyApplyFilter_congr (months : List String) (e d f : List Int)
    (c1 c2 : String) (h : ∀ m ∈ months, m ≠ c1 ∧ m ≠ c2) :
    monthlyApplyFilter months e d f c1 = monthlyApplyFilter months e d f c2 := by
  simp only [monthlyApplyFilter, filtered_indices,
    filteredIndicesAux_congr c1 c2 months h 0]

theorem mapExcept_date_error (l : List TSPoint)
    (h : ¬ ∀ p ∈ l, p.date.isSome) :
    mapExcept (fun item => pyIndex item.date "date") l =
      .error "KeyError: date" := by
  induction l with
  | nil => simp at h
  | cons p rest ih =>
    cases hp : p.date with
    | none => simp [mapExcept, pyIndex, hp, bind, Except.bind]
    | some s =>
      have hrest : ¬ ∀ q ∈ rest, q.date.isSome := by
        intro hall
        apply h
        intro q hq
        rcases List.mem_cons.1 hq with hq | hq
        · subst hq
          simp [hp]
        · exact hall q hq
      have hr := ih hrest
      simp only [mapExcept, hr, hp, bind, Except.bind]
      rfl

theorem monthlyArrays_date_error (metric industry : String)
    (r : ChartsResponse) (h : ¬ ∀ p ∈ tsSelect industry r, p.date.isSome) :
    monthlyArrays metric industry r = .error "KeyError: date" := by
  cases hind : industryActive industry with
  | true =>
    have herr := mapExcept_date_error r.timeseries (by
      simpa [tsSelect, hind] using h)
    cases hm : isAmountMetric metric <;>
      simp [monthlyArrays, hind, hm, herr, bind, Except.bind]
  | false =>
    have herr := mapExcept_date_error r.time_series (by
      simpa [tsSelect, hind] using h)
    by_cases h1 : metric = "offering_amount"
    · simp [monthlyArrays, hind, h1, herr, bind, Except.bind]
    · by_cases h2 : metric = "amount_sold" <;>
        simp [monthlyArrays, hind, h1, h2, herr, bind, Except.bind]

theorem monthlyData_congr (metric industry c1 c2 : String)
    (d : Option ChartsResponse) (h1 : c1 ∉ monthPool industry d)
    (h2 : c2 ∉ monthPool industry d) :
    monthlyData metric industry c1 d = monthlyData metric industry c2 d := by
  cases d with
  | none =>
    have hf := filter_ne_eq_of_not_mem fallbackMonths c1 c2
      (by simpa [monthPool] using h1) (by simpa [monthPool] using h2)
    simp only [monthlyData, hf]
  | some r =>
    by_cases hdates : ∀ p ∈ tsSelect industry r, p.date.isSome
    · have harr := monthlyArrays_eq metric industry r hdates
      have hmem : ∀ m ∈ (tsSelect industry r).map dateStr,
          m ≠ c1 ∧ m ≠ c2 := by
        intro m hm
        constructor
        · rintro rfl
          exact h1 (by simpa [monthPool] using hm)
        · rintro rfl
          exact h2 (by simpa [monthPool] using hm)
      have happ := monthlyApplyFilter_congr ((tsSelect industry r).map dateStr)
        ((tsSelect industry r).map (monthlyEquityOf metric industry))
        ((tsSelect industry r).map (monthlyDebtOf metric industry))
        ((tsSelect industry r).map (monthlyFundOf metric industry))
        c1 c2 hmem
      simp only [monthlyData, harr, bind, Except.bind]
      exact happ
    · have herr := monthlyArrays_date_error metric industry r hdates
      simp [monthlyData, herr, bind, Except.bind]

/-- Projection reading the `x` array of the first trace of a chart
response. -/
def chartFirstTraceXs (j : Json) : Option Json :=
  match jsonGetField j "data" with
  | some (Json.arr (t :: _)) => jsonGetField t "x"
  | _ => none

/-- Concrete two-point time series for the C8 counterexample. -/
def c8ts : ChartsResponse :=
  ⟨[TSPoint.counts "2025-11" 1 2 3, TSPoint.counts "2025-12" 4 5 6], []⟩

/-- C8 counterexample: two monthly-activity calls with identical parameters
and an identical fetch result, made in different (adjacent) current months,
return different chart-specification outputs — the in-progress-month
exclusion removes a different point from the data arrays, which is not a
time-stamped cache-busting field. -/
theorem C8_counterexample :
    get_monthly_activity_ep "count" "all" "dark" false "2025-11" (some c8ts) ≠
      get_monthly_activity_ep "count" "all" "dark" false "2025-12" (some c8ts) := by
  intro h
  have e1 : chartFirstTraceXs
      (get_monthly_activity_ep "count" "all" "dark" false "2025-11" (some c8ts)) =
      some (Json.arr [Json.str "2025-12"]) := rfl
  have e2 : chartFirstTraceXs
      (get_monthly_activity_ep "count" "all" "dark" false "2025-12" (some c8ts)) =
      some (Json.arr [Json.str "2025-11"]) := rfl
  rw [h, e2] at e1
  simp at e1

/-- C8 (amended): with identical parameters and an identical fetch result,
each chart endpoint is deterministic up to its clock reads:
`get_location_distribution`'s timestamp enters only the fetch URL (as the
explicit `_t` cache-busting parameter) and never the response, and
`get_monthly_activity`'s output depends on the clock only through the
current-month exclusion — whenever neither observed current month occurs
among the data's month labels (e.g. any two instants inside the same
month), the outputs are byte-identical; the remaining chart endpoints read
no clock at all. -/
theorem C8_time_dependence (year : Option String)
    (metric industry theme : String) (raw : Bool) (t t1 t2 : Nat)
    (dl fl : Option DistResponse) (c1 c2 : String)
    (d : Option ChartsResponse) (h1 : c1 ∉ monthPool industry d)
    (h2 : c2 ∉ monthPool industry d) :
    get_location_distribution_body year metric theme raw t1 dl fl =
      get_location_distribution_body year metric theme raw t2 dl fl ∧
    (optParamActive year = true →
      location_endpoint_string year metric t =
        "charts/location-distribution?" ++
          String.intercalate "&"
            ((if optParamActive year then ["year=" ++ year.getD ""] else []) ++
             (if metric ≠ "" then ["metric=" ++ metric] else [])) ++
          "&_t=" ++ toString t) ∧
    get_monthly_activity_body metric industry theme raw c1 d =
      get_monthly_activity_body metric industry theme raw c2 d := by
  refine ⟨rfl, ?_, ?_⟩
  · intro hy
    simp [location_endpoint_string, hy]
  · simp only [get_monthly_activity_body,
      monthlyData_congr metric industry c1 c2 d h1 h2]

/-- Witness for C8 (amended): two current months, neither of which occurs
in the concrete series, produce identical outputs. -/
theorem C8_time_dependence_witness :
    get_monthly_activity_body "count" "all" "dark" false "1900-01" (some c8ts) =
      get_monthly_activity_body "count" "all" "dark" false "1900-02" (some c8ts) :=
  (C8_time_dependence none "count" "all" "dark" false 0 0 0 none none
    "1900-01" "1900-02" (some c8ts) (by decide) (by decide)).2.2

end FormD
